import Mathlib

/-!
# PolygonalMapDisplay

A shallow embedding of `ogre_vis::PolygonalMapDisplay`
(`displays/polygonal_map_display.cpp`) and the properties of its
message-driven scene synchronisation.

Conventions of the embedding.

* `F` stands for the C++ `float`.  The display only stores and copies
  floats (coordinates, colour channels, sizes); the only float it creates
  itself is the literal `0.0f`, hence `[Zero F]`.  The other literals of the
  constructor are fields of `Env`.
* `R` is the rotation part of a `tf::Pose`, `O` is `Ogre::Matrix3`.
* The arrays of a message are lists.  The length of an array of a message is
  a `uint32_t` (as `get_polygons_size ()` returns it), so the `uint32_t`
  counters `i` and `j`, each running over one array, visit every element once
  in index order, and the loops are written by recursion on the lists.  The
  sum of the lengths, `num_total_points`, and the running index
  `cnt_total_points` are natural numbers reduced modulo `2 ^ 32`.  A message
  reaches the display through the ROS node only, which delivers messages of
  fewer than `2 ^ 32` points; the properties of the Points branch state this
  bound as a hypothesis on the number of points.
* The collaborators whose code is outside the display (the tf listener, the
  ROS node, `Ogre::ManualObject`, `Ogre::SceneNode`,
  `ogre_tools::PointCloud`, the helpers of `common.h`) appear through their
  interface: as state records with the operations the display calls, as
  function parameters (`Env`, `FrameService`), or as entries of the event
  log `Display.events` (most recent first).  The log records the calls that
  leave no trace in these records: `lock` and `unlock` of the message, the
  requests to the ROS node, `addPoints`, `causeRender`, `ROS_ERROR` and the
  `changed ()` notifications of the property objects.
* An operation returns `none` exactly when the C++ execution has undefined
  behaviour: a write through `points[cnt_total_points]` past the end of the
  vector.
-/

namespace ogre_vis

/-! ## Messages -/

/-- A point of the message (`std_msgs::Point32`): three floats. -/
structure Point32 (F : Type) where
  x : F
  y : F
  z : F
deriving DecidableEq

/-- The colour of a polygon of the message (`std_msgs::ColorRGBA`). -/
structure ColorRGBA (F : Type) where
  r : F
  g : F
  b : F
  a : F
deriving DecidableEq

/-- One polygon of the message: `points` and `color`. -/
structure Polygon3D (F : Type) where
  points : List (Point32 F)
  color : ColorRGBA F
deriving DecidableEq

/-- The message `std_msgs::PolygonalMap`: the member `polygons`. -/
structure PolygonalMap (F : Type) where
  polygons : List (Polygon3D F)
deriving DecidableEq

/-! ## Values of the rendering side -/

/-- The configured colour (`ogre_vis::Color`, `helpers/color.h`). -/
structure Color (F : Type) where
  r_ : F
  g_ : F
  b_ : F
deriving DecidableEq

/-- An `Ogre::ColourValue`. -/
structure ColourValue (F : Type) where
  r : F
  g : F
  b : F
  a : F
deriving DecidableEq

/-- An `ogre_tools::PointCloud::Point`: position and colour, no alpha. -/
structure CloudPoint (F : Type) where
  x_ : F
  y_ : F
  z_ : F
  r_ : F
  g_ : F
  b_ : F
deriving DecidableEq

/-- An `Ogre::Vector3`. -/
structure Vector3 (F : Type) where
  x : F
  y : F
  z : F
deriving DecidableEq

/-- A `tf::Stamped<tf::Pose>`: origin, rotation and frame id (the time stamp
is always `ros::Time ()`, the latest available). -/
structure StampedPose (F R : Type) where
  origin : Vector3 F
  basis : R
  frame_id : String
deriving DecidableEq

/-- The enumeration `Ogre::RenderOperation::OperationType`. -/
inductive OperationType where
  | OT_POINT_LIST
  | OT_LINE_LIST
  | OT_LINE_STRIP
  | OT_TRIANGLE_LIST
  | OT_TRIANGLE_STRIP
  | OT_TRIANGLE_FAN
deriving DecidableEq

/-- A vertex of a manual object: `position (x, y, z)` creates it,
`colour (c)` sets the colour of the vertex created last. -/
structure Vertex (F : Type) where
  x : F
  y : F
  z : F
  colour : Option (ColourValue F)
deriving DecidableEq

/-- A section (primitive) of a manual object: what lies between one `begin`
and the matching `end`. -/
structure Section (F : Type) where
  material : String
  op : OperationType
  vertices : List (Vertex F)
deriving DecidableEq

/-- The state of an `Ogre::ManualObject`: the finished sections, in the
order they were ended, and the section that is open, if any. -/
structure ManualObject (F : Type) where
  sections : List (Section F)
  current : Option (Section F)
deriving DecidableEq

/-- The state of an `ogre_tools::PointCloud`: its points, its alpha and the
billboard dimensions. -/
structure PointCloud (F : Type) where
  points : List (CloudPoint F)
  alpha : F
  width : F
  height : F
deriving DecidableEq

/-- The state of the `Ogre::SceneNode` of the display. -/
structure SceneNode (F O : Type) where
  position : Vector3 F
  orientation : O
  visible : Bool
deriving DecidableEq

/-- The properties of the display in the inspector panel, one for each
`..._property_` member. -/
inductive Property where
  | color
  | topic
  | overrideColor
  | renderOperation
  | pointSize
  | zPosition
  | alpha
deriving DecidableEq

/-- What the display asks of its collaborators, in the order asked. -/
inductive Event where
  | lock
  | unlock
  | subscribe (topic : String)
  | unsubscribe (topic : String)
  | causeRender
  | rosError
  | addPoints (n : Nat)
  | changed (property : Property)
deriving DecidableEq

/-- The members of `PolygonalMapDisplay`, with `enabled_` and `fixed_frame_`
of the base class `Display`, and the log of requests to collaborators
(most recent first).  A member `..._property_` is true when the pointer is
not `NULL`. -/
structure Display (F O : Type) where
  enabled_ : Bool
  fixed_frame_ : String
  topic_ : String
  color_ : Color F
  render_operation_ : Int
  override_color_ : Bool
  point_size_ : F
  z_position_ : F
  alpha_ : F
  new_message_ : Bool
  message_ : PolygonalMap F
  color_property_ : Bool
  topic_property_ : Bool
  override_color_property_ : Bool
  render_operation_property_ : Bool
  point_size_property_ : Bool
  z_position_property_ : Bool
  alpha_property_ : Bool
  scene_node_ : SceneNode F O
  manual_object_ : ManualObject F
  cloud_ : PointCloud F
  events : List Event
deriving DecidableEq

/-- The helpers the display calls and the float literals it uses:
`btQuaternion (yaw, pitch, roll)`, `robotToOgre` and
`ogreMatrixFromRobotEulers` of `common.h`, `btMatrix3x3::getEulerZYX`, and
the literals `0.1f`, `1.0f`, `0.05f`. -/
structure Env (F R O : Type) where
  btQuaternion : F → F → F → R
  robotToOgre : Vector3 F → Vector3 F
  getEulerZYX : R → F × F × F
  ogreMatrixFromRobotEulers : F → F → F → O
  lit_0_1 : F
  lit_1_0 : F
  lit_0_05 : F

/-- The tf listener `tf_` at the time of a call.  `canTransform target
source` answers for the latest time; `transformPose target pose` is `none`
when the call throws a `tf::TransformException`, and the pose it was given is
then untouched. -/
structure FrameService (F R : Type) where
  canTransform : String → String → Bool
  transformPose : String → StampedPose F R → Option (StampedPose F R)

/-- Modelled from the spec: the enumerator `polygon_render_ops::PLines` of
`polygonal_map_display.h`, which is not among the sources; the render mode
Lines. -/
def PLines : Int := 0

/-- Modelled from the spec: the enumerator `polygon_render_ops::PPoints` of
`polygonal_map_display.h`, which is not among the sources; the render mode
Points, different from `PLines`. -/
def PPoints : Int := 1

/-- The modulus of `uint32_t`. -/
def UINT32 : Nat := 2 ^ 32

/-! ## The collaborators' operations -/

/-- `Ogre::ManualObject::clear`: no section is left, none is open. -/
def ManualObject.clear {F : Type} (_m : ManualObject F) : ManualObject F :=
  { sections := [], current := none }

/-- `Ogre::ManualObject::estimateVertexCount`: an allocation hint, without
effect on the sections. -/
def ManualObject.estimateVertexCount {F : Type} (m : ManualObject F) (_n : Nat) :
    ManualObject F := m

/-- `Ogre::ManualObject::begin`: opens a section. -/
def ManualObject.begin {F : Type} (m : ManualObject F) (material : String)
    (op : OperationType) : ManualObject F :=
  { m with current := some { material := material, op := op, vertices := [] } }

/-- `Ogre::ManualObject::position`: a new vertex at the end of the open
section. -/
def ManualObject.position {F : Type} (m : ManualObject F) (x y z : F) : ManualObject F :=
  { m with current := m.current.map fun sec =>
      { sec with vertices := sec.vertices ++ [{ x := x, y := y, z := z, colour := none }] } }

/-- The colour of the last vertex of a list set to `c`. -/
def setLastColour {F : Type} (c : ColourValue F) : List (Vertex F) → List (Vertex F)
  | [] => []
  | [v] => [{ v with colour := some c }]
  | v :: w :: vs => v :: setLastColour c (w :: vs)

/-- `Ogre::ManualObject::colour`: the colour of the vertex created last. -/
def ManualObject.colour {F : Type} (m : ManualObject F) (c : ColourValue F) :
    ManualObject F :=
  { m with current := m.current.map fun sec =>
      { sec with vertices := setLastColour c sec.vertices } }

/-- `Ogre::ManualObject::end`: the open section becomes the last finished
one. -/
def ManualObject.end {F : Type} (m : ManualObject F) : ManualObject F :=
  match m.current with
  | some sec => { sections := m.sections ++ [sec], current := none }
  | none => m

/-- `ogre_tools::PointCloud::clear`: no point is left. -/
def PointCloud.clear {F : Type} (c : PointCloud F) : PointCloud F :=
  { c with points := [] }

/-- `ogre_tools::PointCloud::addPoints`: the given points after the ones
already there. -/
def PointCloud.addPoints {F : Type} (c : PointCloud F) (ps : List (CloudPoint F)) :
    PointCloud F :=
  { c with points := c.points ++ ps }

/-- `ogre_tools::PointCloud::setAlpha`. -/
def PointCloud.setAlpha {F : Type} (c : PointCloud F) (alpha : F) : PointCloud F :=
  { c with alpha := alpha }

/-- `ogre_tools::PointCloud::setBillboardDimensions`. -/
def PointCloud.setBillboardDimensions {F : Type} (c : PointCloud F) (w h : F) :
    PointCloud F :=
  { c with width := w, height := h }

/-- One more entry in the log of requests. -/
def Display.log {F O : Type} (s : Display F O) (e : Event) : Display F O :=
  { s with events := e :: s.events }

/-- The statement `if (x_property_) x_property_->changed ();` of the
setters. -/
def notify {F O : Type} (present : Bool) (property : Property) (s : Display F O) :
    Display F O :=
  if present then s.log (Event.changed property) else s

/-- `Display::causeRender` of the base class: a redraw is requested. -/
def causeRender {F O : Type} (s : Display F O) : Display F O :=
  s.log Event.causeRender

/-- `Ogre::SceneNode::setPosition`. -/
def SceneNode.setPosition {F O : Type} (n : SceneNode F O) (p : Vector3 F) : SceneNode F O :=
  { n with position := p }

/-- `Ogre::SceneNode::setOrientation`. -/
def SceneNode.setOrientation {F O : Type} (n : SceneNode F O) (o : O) : SceneNode F O :=
  { n with orientation := o }

/-- `Ogre::SceneNode::setVisible`. -/
def SceneNode.setVisible {F O : Type} (n : SceneNode F O) (v : Bool) : SceneNode F O :=
  { n with visible := v }

/-! ## The display -/

section Operations

variable {F R O : Type} [Zero F]

/-- `PolygonalMapDisplay::clear`. -/
def clear (s : Display F O) : Display F O :=
  { s with manual_object_ := s.manual_object_.clear, cloud_ := s.cloud_.clear }

/-- `PolygonalMapDisplay::subscribe`: nothing while disabled, nothing for an
empty topic. -/
def subscribe (s : Display F O) : Display F O :=
  if !s.enabled_ then s
  else if s.topic_ ≠ "" then s.log (Event.subscribe s.topic_)
  else s

/-- `PolygonalMapDisplay::unsubscribe`: nothing for an empty topic. -/
def unsubscribe (s : Display F O) : Display F O :=
  if s.topic_ ≠ "" then s.log (Event.unsubscribe s.topic_) else s

/-- The pose `processMessage` starts from: rotation `btQuaternion (0, 0, 0)`,
origin `(0, 0, z_position_)`, in frame "map". -/
def sourcePose (env : Env F R O) (s : Display F O) : StampedPose F R :=
  { origin := { x := 0, y := 0, z := s.z_position_ }
    basis := env.btQuaternion 0 0 0
    frame_id := "map" }

/-- The transform step of `processMessage`: the pose in the fixed frame when
the listener can transform and `transformPose` does not throw; otherwise the
pose it was given, with a `ROS_ERROR` in the log when the call threw. -/
def transformToFixedFrame (tf : FrameService F R) (s : Display F O)
    (pose : StampedPose F R) : StampedPose F R × Display F O :=
  if tf.canTransform s.fixed_frame_ "map" then
    match tf.transformPose s.fixed_frame_ pose with
    | some p => (p, s)
    | none => (pose, s.log Event.rosError)
  else (pose, s)

/-- The loop computing `num_total_points`, a `uint32_t`. -/
def countTotalPoints (polygons : List (Polygon3D F)) : Nat :=
  polygons.foldl (fun n poly => (n + poly.points.length) % UINT32) 0

/-- The value given to `color` for a point of `poly`, the same expression in
both branches of `processMessage`. -/
def resolveColour (s : Display F O) (poly : Polygon3D F) : ColourValue F :=
  if s.override_color_ then
    { r := s.color_.r_, g := s.color_.g_, b := s.color_.b_, a := s.alpha_ }
  else
    { r := poly.color.r, g := poly.color.g, b := poly.color.b, a := s.alpha_ }

/-- The write through the reference `points[cnt_total_points]`; `none` when
the index is past the end of the vector. -/
def writePoint (points : List (CloudPoint F)) (cnt : Nat) (p : CloudPoint F) :
    Option (List (CloudPoint F)) :=
  if cnt < points.length then some (points.set cnt p) else none

/-- The six assignments to `current_point` for the point `pt` of `poly`:
the coordinates of `pt` and the red, green and blue of `color`. -/
def currentPoint (s : Display F O) (poly : Polygon3D F) (pt : Point32 F) : CloudPoint F :=
  let color := resolveColour s poly
  { x_ := pt.x, y_ := pt.y, z_ := pt.z, r_ := color.r, g_ := color.g, b_ := color.b }

/-- The inner loop of the Points branch, over the points of `poly` from index
`j` on; the state is the vector `points` and `cnt_total_points`. -/
def fillPolygon (s : Display F O) (poly : Polygon3D F) :
    List (Point32 F) → List (CloudPoint F) × Nat → Option (List (CloudPoint F) × Nat)
  | [], st => some st
  | pt :: rest, (points, cnt) =>
    match writePoint points cnt (currentPoint s poly pt) with
    | some points1 => fillPolygon s poly rest (points1, (cnt + 1) % UINT32)
    | none => none

/-- The outer loop of the Points branch, over the polygons from index `i`
on. -/
def fillPoints (s : Display F O) :
    List (Polygon3D F) → List (CloudPoint F) × Nat → Option (List (CloudPoint F) × Nat)
  | [], st => some st
  | poly :: rest, st =>
    match fillPolygon s poly poly.points st with
    | some st1 => fillPoints s rest st1
    | none => none

/-- The inner loop of the Lines branch: `position` then `colour` for each
point of `poly`. -/
def emitVertices (s : Display F O) (poly : Polygon3D F) :
    List (Point32 F) → ManualObject F → ManualObject F
  | [], m => m
  | pt :: rest, m =>
    emitVertices s poly rest ((m.position pt.x pt.y pt.z).colour (resolveColour s poly))

/-- The outer loop of the Lines branch: each polygon between its own `begin`
and `end`. -/
def emitPolygons (s : Display F O) : List (Polygon3D F) → ManualObject F → ManualObject F
  | [], m => m
  | poly :: rest, m =>
    let m1 := m.estimateVertexCount poly.points.length
    let m2 := m1.begin "BaseWhiteNoLighting" OperationType.OT_LINE_STRIP
    let m3 := emitVertices s poly poly.points m2
    emitPolygons s rest (ManualObject.end m3)

/-- The value-initialised element `points.resize` fills the vector with. -/
def CloudPoint.zero : CloudPoint F :=
  { x_ := 0, y_ := 0, z_ := 0, r_ := 0, g_ := 0, b_ := 0 }

/-- The geometry part of `processMessage`, from `manual_object_->clear ()` to
the end of the `if`/`else` on the render operation.  The loops read the
message and the members `override_color_`, `color_`, `alpha_`, which the
calls on the manual object and the cloud leave alone. -/
def buildGeometry (s : Display F O) : Option (Display F O) :=
  let manual := s.manual_object_.clear
  let num_total_points := countTotalPoints s.message_.polygons
  if s.render_operation_ = PPoints then
    match fillPoints s s.message_.polygons
        (List.replicate num_total_points CloudPoint.zero, 0) with
    | none => none
    | some (points, _) =>
      let cloud := s.cloud_.clear
      if points.isEmpty then some { s with manual_object_ := manual, cloud_ := cloud }
      else some ({ s with manual_object_ := manual, cloud_ := cloud.addPoints points }.log
        (Event.addPoints points.length))
  else
    some { s with manual_object_ := emitPolygons s s.message_.polygons manual }

/-- `PolygonalMapDisplay::processMessage`, one synchronisation pass. -/
def processMessage (env : Env F R O) (tf : FrameService F R) (s : Display F O) :
    Option (Display F O) :=
  let s1 := clear (s.log Event.lock)
  let posed := transformToFixedFrame tf s1 (sourcePose env s1)
  let pose := posed.1
  let position := env.robotToOgre { x := pose.origin.x, y := pose.origin.y, z := pose.origin.z }
  let ypr := env.getEulerZYX pose.basis
  let orientation := env.ogreMatrixFromRobotEulers ypr.1 ypr.2.1 ypr.2.2
  (buildGeometry posed.2).map fun s2 =>
    { s2 with
      scene_node_ := (s2.scene_node_.setPosition position).setOrientation orientation }.log
      Event.unlock

/-- `PolygonalMapDisplay::incomingMessage`. -/
def incomingMessage (s : Display F O) : Display F O :=
  { s with new_message_ := true }

/-- A delivery by the ROS node: the node was given `message_` as the buffer to
receive into (`ros_node_->subscribe (topic_, message_, ...)`), it writes the
received message there and calls `incomingMessage`. -/
def deliver (m : PolygonalMap F) (s : Display F O) : Display F O :=
  incomingMessage { s with message_ := m }

/-- `PolygonalMapDisplay::update`. -/
def update (env : Env F R O) (tf : FrameService F R) (_dt : F) (s : Display F O) :
    Option (Display F O) :=
  if s.new_message_ then
    (processMessage env tf s).map fun s1 => causeRender { s1 with new_message_ := false }
  else some s

/-- `PolygonalMapDisplay::setTopic`. -/
def setTopic (topic : String) (s : Display F O) : Display F O :=
  causeRender
    (notify s.topic_property_ Property.topic (subscribe { unsubscribe s with topic_ := topic }))

/-- `PolygonalMapDisplay::setColor`. -/
def setColor (env : Env F R O) (tf : FrameService F R) (color : Color F)
    (s : Display F O) : Option (Display F O) :=
  (processMessage env tf
    (notify s.color_property_ Property.color { s with color_ := color })).map causeRender

/-- `PolygonalMapDisplay::setOverrideColor`. -/
def setOverrideColor (env : Env F R O) (tf : FrameService F R) (override : Bool)
    (s : Display F O) : Option (Display F O) :=
  (processMessage env tf
    (notify s.override_color_property_ Property.overrideColor
      { s with override_color_ := override })).map causeRender

/-- `PolygonalMapDisplay::setRenderOperation`. -/
def setRenderOperation (env : Env F R O) (tf : FrameService F R) (op : Int)
    (s : Display F O) : Option (Display F O) :=
  (processMessage env tf
    (notify s.render_operation_property_ Property.renderOperation
      { s with render_operation_ := op })).map causeRender

/-- `PolygonalMapDisplay::setPointSize`. -/
def setPointSize (size : F) (s : Display F O) : Display F O :=
  let s1 := notify s.point_size_property_ Property.pointSize { s with point_size_ := size }
  causeRender { s1 with cloud_ := s1.cloud_.setBillboardDimensions size size }

/-- `PolygonalMapDisplay::setZPosition`. -/
def setZPosition (z : F) (s : Display F O) : Display F O :=
  let s1 := notify s.z_position_property_ Property.zPosition { s with z_position_ := z }
  causeRender { s1 with scene_node_ := s1.scene_node_.setPosition { x := 0, y := z, z := 0 } }

/-- `PolygonalMapDisplay::setAlpha`. -/
def setAlpha (env : Env F R O) (tf : FrameService F R) (alpha : F)
    (s : Display F O) : Option (Display F O) :=
  (processMessage env tf
    (notify s.alpha_property_ Property.alpha
      { s with alpha_ := alpha, cloud_ := s.cloud_.setAlpha alpha })).map causeRender

/-- `PolygonalMapDisplay::onEnable`. -/
def onEnable (s : Display F O) : Display F O :=
  subscribe { s with scene_node_ := s.scene_node_.setVisible true }

/-- `PolygonalMapDisplay::onDisable`. -/
def onDisable (s : Display F O) : Display F O :=
  let s1 := clear (unsubscribe s)
  { s1 with scene_node_ := s1.scene_node_.setVisible false }

/-- `PolygonalMapDisplay::fixedFrameChanged`. -/
def fixedFrameChanged (s : Display F O) : Display F O :=
  clear s

/-- `PolygonalMapDisplay::reset`. -/
def reset (s : Display F O) : Display F O :=
  clear s

/-- `PolygonalMapDisplay::createProperties`: six properties are created; none
for the point size. -/
def createProperties (s : Display F O) : Display F O :=
  { s with
    override_color_property_ := true
    color_property_ := true
    render_operation_property_ := true
    z_position_property_ := true
    alpha_property_ := true
    topic_property_ := true }

/-! ## Vocabulary of the properties -/

/-- The number of points of a message, all polygons together. -/
def totalPoints (m : PolygonalMap F) : Nat :=
  (m.polygons.map fun poly => poly.points.length).sum

/-- The points of a message in traversal order: polygon index ascending,
then point index ascending. -/
def traversal (m : PolygonalMap F) : List (Point32 F) :=
  m.polygons.flatMap fun poly => poly.points

/-- The coordinates of a point of the cloud. -/
def CloudPoint.coords (p : CloudPoint F) : Point32 F :=
  { x := p.x_, y := p.y_, z := p.z_ }

/-- The coordinates of a vertex of a manual object. -/
def Vertex.coords (v : Vertex F) : Point32 F :=
  { x := v.x, y := v.y, z := v.z }

/-- The points the Points branch computes for a list of polygons. -/
def cloudPoints (s : Display F O) (polygons : List (Polygon3D F)) : List (CloudPoint F) :=
  polygons.flatMap fun poly => poly.points.map (currentPoint s poly)

/-- The vertex the Lines branch emits for the point `pt` of `poly`. -/
def stripVertex (s : Display F O) (poly : Polygon3D F) (pt : Point32 F) : Vertex F :=
  { x := pt.x, y := pt.y, z := pt.z, colour := some (resolveColour s poly) }

/-- The line strip of the polygon `poly`. -/
def lineStrip (s : Display F O) (poly : Polygon3D F) : Section F :=
  { material := "BaseWhiteNoLighting"
    op := OperationType.OT_LINE_STRIP
    vertices := poly.points.map (stripVertex s poly) }

/-- The pose a pass ends with in state `s`: the source pose taken through
the transform step. -/
def resolvedPose (env : Env F R O) (tf : FrameService F R) (s : Display F O) :
    StampedPose F R :=
  if tf.canTransform s.fixed_frame_ "map" then
    match tf.transformPose s.fixed_frame_ (sourcePose env s) with
    | some p => p
    | none => sourcePose env s
  else sourcePose env s

/-- The position a pass commits to the scene node. -/
def passPosition (env : Env F R O) (tf : FrameService F R) (s : Display F O) : Vector3 F :=
  env.robotToOgre (resolvedPose env tf s).origin

/-- The orientation a pass commits to the scene node. -/
def passOrientation (env : Env F R O) (tf : FrameService F R) (s : Display F O) : O :=
  let ypr := env.getEulerZYX (resolvedPose env tf s).basis
  env.ogreMatrixFromRobotEulers ypr.1 ypr.2.1 ypr.2.2

/-- Whether the transform step of a pass in state `s` ends in the caught
`tf::TransformException`. -/
def transformThrows (env : Env F R O) (tf : FrameService F R) (s : Display F O) : Bool :=
  tf.canTransform s.fixed_frame_ "map" &&
    (tf.transformPose s.fixed_frame_ (sourcePose env s)).isNone

/-- The log after a completed pass that started in state `s` and submitted
`n` points (`n = 0`: no call of `addPoints`): `lock`, the `ROS_ERROR` of a
caught transform exception, `addPoints`, `unlock`, on top of the log of
`s`. -/
def passEvents (env : Env F R O) (tf : FrameService F R) (s : Display F O) (n : Nat) :
    List Event :=
  Event.unlock ::
    ((if n = 0 then [] else [Event.addPoints n]) ++
      ((if transformThrows env tf s then [Event.rosError] else []) ++
        Event.lock :: s.events))

/-- The addPoints requests in a log. -/
def addPointsRequests (events : List Event) : List Event :=
  events.filter fun e => match e with
    | Event.addPoints _ => true
    | _ => false

/-- The scene as the renderer sees it: the manual object, the cloud and the
scene node. -/
def scene (s : Display F O) : ManualObject F × PointCloud F × SceneNode F O :=
  (s.manual_object_, s.cloud_, s.scene_node_)

/-- The colour rule in the words of the specification:
`effectiveColor = overrideColorEnabled ? (configuredColor, alpha) :
(sourceColor.rgb, alpha)`. -/
def effectiveColor (overrideColorEnabled : Bool) (configuredColor : Color F) (alpha : F)
    (sourceColor : ColorRGBA F) : ColourValue F :=
  if overrideColorEnabled then
    { r := configuredColor.r_, g := configuredColor.g_, b := configuredColor.b_, a := alpha }
  else
    { r := sourceColor.r, g := sourceColor.g, b := sourceColor.b, a := alpha }

/-- The colour a point of a cloud is drawn with: the red, green and blue of
the point and the alpha of the cloud (`ogre_tools::PointCloud::setAlpha`). -/
def PointCloud.colourOf (c : PointCloud F) (p : CloudPoint F) : ColourValue F :=
  { r := p.r_, g := p.g_, b := p.b_, a := c.alpha }

/-- A message with the alpha of every polygon colour replaced. -/
def replaceAlpha (g : ColorRGBA F → F) (m : PolygonalMap F) : PolygonalMap F :=
  { polygons := m.polygons.map fun poly =>
      { poly with color := { poly.color with a := g poly.color } } }

end Operations

/-! ## Concrete inputs

Integers stand for the floats; a rotation is a triple of Euler angles. -/

/-- Helpers for the concrete inputs: `robotToOgre` maps `(x, y, z)` to
`(-y, z, -x)`. -/
def demoEnv : Env Int (Int × Int × Int) (Int × Int × Int) :=
  { btQuaternion := fun yaw pitch roll => (yaw, pitch, roll)
    robotToOgre := fun v => { x := -v.y, y := v.z, z := -v.x }
    getEulerZYX := fun r => r
    ogreMatrixFromRobotEulers := fun yaw pitch roll => (yaw, pitch, roll)
    lit_0_1 := 1
    lit_1_0 := 10
    lit_0_05 := 5 }

/-- A listener that has no transform. -/
def demoNoTransform : FrameService Int (Int × Int × Int) :=
  { canTransform := fun _ _ => false
    transformPose := fun _ _ => none }

/-- A listener that reports a transform and then throws. -/
def demoThrowingTransform : FrameService Int (Int × Int × Int) :=
  { canTransform := fun _ _ => true
    transformPose := fun _ _ => none }

/-- A listener that moves every pose by `(1, 2, 3)` and turns it by a yaw of
`90`. -/
def demoTransform : FrameService Int (Int × Int × Int) :=
  { canTransform := fun _ _ => true
    transformPose := fun target pose =>
      some
        { origin := { x := pose.origin.x + 1, y := pose.origin.y + 2, z := pose.origin.z + 3 }
          basis := (pose.basis.1 + 90, pose.basis.2)
          frame_id := target } }

/-- Two polygons: `[(0,0,0), (1,0,0)]` in red and `[(0,1,0), (0,2,0)]` in
blue, source alpha `7`. -/
def demoMessage : PolygonalMap Int :=
  { polygons :=
      [ { points := [{ x := 0, y := 0, z := 0 }, { x := 1, y := 0, z := 0 }]
          color := { r := 1, g := 0, b := 0, a := 7 } },
        { points := [{ x := 0, y := 1, z := 0 }, { x := 0, y := 2, z := 0 }]
          color := { r := 0, g := 0, b := 1, a := 7 } } ] }

/-- One polygon with one point. -/
def demoOtherMessage : PolygonalMap Int :=
  { polygons :=
      [ { points := [{ x := 5, y := 5, z := 5 }]
          color := { r := 1, g := 1, b := 1, a := 1 } } ] }

/-- An enabled display in Lines mode, subscribed to "polygons", holding
`demoMessage`, with nothing drawn yet. -/
def demoDisplay : Display Int (Int × Int × Int) :=
  { enabled_ := true
    fixed_frame_ := "base_link"
    topic_ := "polygons"
    color_ := { r_ := 0, g_ := 1, b_ := 0 }
    render_operation_ := PLines
    override_color_ := false
    point_size_ := 5
    z_position_ := 4
    alpha_ := 2
    new_message_ := false
    message_ := demoMessage
    color_property_ := true
    topic_property_ := true
    override_color_property_ := true
    render_operation_property_ := true
    point_size_property_ := false
    z_position_property_ := true
    alpha_property_ := true
    scene_node_ := { position := { x := 0, y := 0, z := 0 }, orientation := (0, 0, 0), visible := true }
    manual_object_ := { sections := [], current := none }
    cloud_ := { points := [], alpha := 2, width := 5, height := 5 }
    events := [Event.subscribe "polygons"] }

/-- The same display in Points mode. -/
def demoPointsDisplay : Display Int (Int × Int × Int) :=
  { demoDisplay with render_operation_ := PPoints }

/-- The constructed display after `enable`, `setTopic "polygons"`, the
delivery of `demoMessage` and an `update` without transform. -/
def demoShown : Display Int (Int × Int × Int) :=
  { enabled_ := true
    fixed_frame_ := "base_link"
    topic_ := "polygons"
    color_ := { r_ := 1, g_ := 10, b_ := 0 }
    render_operation_ := PLines
    override_color_ := false
    point_size_ := 5
    z_position_ := 0
    alpha_ := 10
    new_message_ := false
    message_ := demoMessage
    color_property_ := false
    topic_property_ := false
    override_color_property_ := false
    render_operation_property_ := false
    point_size_property_ := false
    z_position_property_ := false
    alpha_property_ := false
    scene_node_ := { position := { x := 0, y := 0, z := 0 }, orientation := (0, 0, 0), visible := true }
    manual_object_ :=
      { sections :=
          [ { material := "BaseWhiteNoLighting"
              op := OperationType.OT_LINE_STRIP
              vertices :=
                [ { x := 0, y := 0, z := 0, colour := some { r := 1, g := 0, b := 0, a := 10 } },
                  { x := 1, y := 0, z := 0, colour := some { r := 1, g := 0, b := 0, a := 10 } } ] },
            { material := "BaseWhiteNoLighting"
              op := OperationType.OT_LINE_STRIP
              vertices :=
                [ { x := 0, y := 1, z := 0, colour := some { r := 0, g := 0, b := 1, a := 10 } },
                  { x := 0, y := 2, z := 0, colour := some { r := 0, g := 0, b := 1, a := 10 } } ] } ]
        current := none }
    cloud_ := { points := [], alpha := 10, width := 5, height := 5 }
    events :=
      [ Event.causeRender, Event.unlock, Event.lock,
        Event.causeRender, Event.subscribe "polygons",
        Event.causeRender, Event.causeRender, Event.causeRender, Event.unlock, Event.lock ] }

/-! ## The life of a display -/

section Life

variable {F R O : Type} [Zero F]

/-- The constructor of `PolygonalMapDisplay`.  `blank` gives what the
constructor does not initialise itself: the members of the base class, the
floats without initialiser, and the state in which the scene node and the
cloud are created. -/
def construct (env : Env F R O) (tf : FrameService F R) (blank : Display F O) :
    Option (Display F O) :=
  let s0 : Display F O :=
    { blank with
      topic_ := ""
      color_ := { r_ := env.lit_0_1, g_ := env.lit_1_0, b_ := 0 }
      render_operation_ := PLines
      override_color_ := false
      new_message_ := false
      message_ := { polygons := [] }
      color_property_ := false
      topic_property_ := false
      override_color_property_ := false
      render_operation_property_ := false
      point_size_property_ := false
      z_position_property_ := false
      alpha_property_ := false
      manual_object_ := { sections := [], current := none }
      cloud_ := { blank.cloud_ with points := [] }
      events := [] }
  (setAlpha env tf env.lit_1_0 s0).map fun s1 =>
    setZPosition 0 (setPointSize env.lit_0_05 s1)

/-- Modelled from the spec: `Display::enable` of the base class, which is not
among the sources; the display becomes enabled and the hook `onEnable`
runs. -/
def enable (s : Display F O) : Display F O :=
  onEnable { s with enabled_ := true }

/-- Modelled from the spec: `Display::disable` of the base class, which is not
among the sources; the display becomes disabled and the hook `onDisable`
runs. -/
def disable (s : Display F O) : Display F O :=
  onDisable { s with enabled_ := false }

/-- Modelled from the spec: `Display::setFixedFrame` of the base class, which
is not among the sources; the fixed frame is stored and the hook
`fixedFrameChanged` runs. -/
def setFixedFrame (frame : String) (s : Display F O) : Display F O :=
  fixedFrameChanged { s with fixed_frame_ := frame }

/-- Modelled from the spec: the getters declared in
`polygonal_map_display.h`, which is not among the sources; each returns its
member, as the getters of `poly_line_2d_visualizer.h` do. -/
def getColor (s : Display F O) : Color F := s.color_

/-- Modelled from the spec: the getter of `override_color_`, declared in the
absent `polygonal_map_display.h`. -/
def getOverrideColor (s : Display F O) : Bool := s.override_color_

/-- Modelled from the spec: the getter of `render_operation_`, declared in the
absent `polygonal_map_display.h`. -/
def getRenderOperation (s : Display F O) : Int := s.render_operation_

/-- Modelled from the spec: the getter of `point_size_`, declared in the
absent `polygonal_map_display.h`. -/
def getPointSize (s : Display F O) : F := s.point_size_

/-- Modelled from the spec: the getter of `z_position_`, declared in the
absent `polygonal_map_display.h`. -/
def getZPosition (s : Display F O) : F := s.z_position_

/-- Modelled from the spec: the getter of `alpha_`, declared in the absent
`polygonal_map_display.h`. -/
def getAlpha (s : Display F O) : F := s.alpha_

/-- Modelled from the spec: the getter of `topic_`, declared in the absent
`polygonal_map_display.h`. -/
def getTopic (s : Display F O) : String := s.topic_

/-- The operations through which the host, the inspector panel and the ROS
node drive a display.  Those that run a pass carry the state of the tf
listener at the time of the call. -/
inductive Op (F R : Type) where
  | deliver (m : PolygonalMap F)
  | update (tf : FrameService F R) (dt : F)
  | setTopic (topic : String)
  | setColor (tf : FrameService F R) (color : Color F)
  | setOverrideColor (tf : FrameService F R) (override : Bool)
  | setRenderOperation (tf : FrameService F R) (op : Int)
  | setPointSize (size : F)
  | setZPosition (z : F)
  | setAlpha (tf : FrameService F R) (alpha : F)
  | enable
  | disable
  | setFixedFrame (frame : String)
  | reset
  | createProperties

/-- One operation on a display. -/
def step (env : Env F R O) (op : Op F R) (s : Display F O) : Option (Display F O) :=
  match op with
  | Op.deliver m => some (deliver m s)
  | Op.update tf dt => update env tf dt s
  | Op.setTopic topic => some (setTopic topic s)
  | Op.setColor tf color => setColor env tf color s
  | Op.setOverrideColor tf override => setOverrideColor env tf override s
  | Op.setRenderOperation tf op => setRenderOperation env tf op s
  | Op.setPointSize size => some (setPointSize size s)
  | Op.setZPosition z => some (setZPosition z s)
  | Op.setAlpha tf alpha => setAlpha env tf alpha s
  | Op.enable => some (enable s)
  | Op.disable => some (disable s)
  | Op.setFixedFrame frame => some (setFixedFrame frame s)
  | Op.reset => some (reset s)
  | Op.createProperties => some (createProperties s)

/-- A sequence of operations, the first of the list first. -/
def run (env : Env F R O) : List (Op F R) → Display F O → Option (Display F O)
  | [], s => some s
  | op :: rest, s =>
    match step env op s with
    | some s1 => run env rest s1
    | none => none

/-- The states a display can be in: those a sequence of operations leads to
from a constructed display. -/
def Reachable (env : Env F R O) (s : Display F O) : Prop :=
  ∃ (tf : FrameService F R) (blank s0 : Display F O) (ops : List (Op F R)),
    construct env tf blank = some s0 ∧ run env ops s0 = some s

/-- Whether an operation, called in state `s`, runs a synchronisation pass
(`processMessage`). -/
def runsPass (op : Op F R) (s : Display F O) : Bool :=
  match op with
  | Op.update _ _ => s.new_message_
  | Op.setColor _ _ => true
  | Op.setOverrideColor _ _ => true
  | Op.setRenderOperation _ _ => true
  | Op.setAlpha _ _ => true
  | _ => false

/-- The bookkeeping of the specification for the pending slot: whether the
slot holds a message that no completed pass has consumed.  A delivery makes
it true, an operation that runs a pass makes it false. -/
def unconsumedAfter (op : Op F R) (s : Display F O) (unconsumed : Bool) : Bool :=
  match op with
  | Op.deliver _ => true
  | _ => if runsPass op s then false else unconsumed

/-- A sequence of operations together with the bookkeeping of
`unconsumedAfter`. -/
def runTracking (env : Env F R O) :
    List (Op F R) → Display F O × Bool → Option (Display F O × Bool)
  | [], st => some st
  | op :: rest, (s, unconsumed) =>
    match step env op s with
    | some s1 => runTracking env rest (s1, unconsumedAfter op s unconsumed)
    | none => none

/-- Whether a message was delivered after the last `update` of a sequence of
operations (after its start, when it has no `update`); `seen` is the answer
for the operations before the sequence. -/
def deliveredSinceUpdate (seen : Bool) : List (Op F R) → Bool
  | [] => seen
  | Op.deliver _ :: rest => deliveredSinceUpdate true rest
  | Op.update _ _ :: rest => deliveredSinceUpdate false rest
  | _ :: rest => deliveredSinceUpdate seen rest

/-- Whether, by the log of requests to the ROS node, the callback of the
display is subscribed to `topic`: the most recent request about `topic`
decides. -/
def subscribedTo : List Event → String → Bool
  | [], _ => false
  | Event.subscribe t :: rest, topic => if t = topic then true else subscribedTo rest topic
  | Event.unsubscribe t :: rest, topic => if t = topic then false else subscribedTo rest topic
  | _ :: rest, topic => subscribedTo rest topic

/-- The geometry a completed pass leaves in state `s`: in Points mode an
empty manual object and the points of the message, otherwise the line strips
of the message and an empty cloud. -/
def committedGeometry (s : Display F O) : ManualObject F × List (CloudPoint F) :=
  if s.render_operation_ = PPoints then
    ({ sections := [], current := none }, cloudPoints s s.message_.polygons)
  else
    ({ sections := s.message_.polygons.map (lineStrip s), current := none }, [])

/-- The number of points a completed pass hands to `addPoints` in state
`s`. -/
def submitted (s : Display F O) : Nat :=
  if s.render_operation_ = PPoints then totalPoints s.message_ else 0

/-- The geometry in the scene: the manual object and the points of the
cloud. -/
def geometry (s : Display F O) : ManualObject F × List (CloudPoint F) :=
  (s.manual_object_, s.cloud_.points)

end Life

/-- What the constructor of the concrete display does not initialise. -/
def demoBlank : Display Int (Int × Int × Int) :=
  { enabled_ := false
    fixed_frame_ := "base_link"
    topic_ := ""
    color_ := { r_ := 0, g_ := 0, b_ := 0 }
    render_operation_ := 0
    override_color_ := false
    point_size_ := 33
    z_position_ := 44
    alpha_ := 55
    new_message_ := false
    message_ := { polygons := [] }
    color_property_ := true
    topic_property_ := true
    override_color_property_ := true
    render_operation_property_ := true
    point_size_property_ := true
    z_position_property_ := true
    alpha_property_ := true
    scene_node_ := { position := { x := 0, y := 0, z := 0 }, orientation := (0, 0, 0), visible := true }
    manual_object_ := { sections := [], current := none }
    cloud_ := { points := [], alpha := 10, width := 1, height := 1 }
    events := [] }

section Invariants

variable {F R O : Type}

/-- The subscriptions of a display, by its log: only to its current topic,
never to the empty topic. -/
def SubscriptionInv (s : Display F O) : Prop :=
  ∀ t : String, subscribedTo s.events t = true → t = s.topic_ ∧ t ≠ ""

/-- The alpha of the cloud is the configured alpha. -/
def AlphaInv (s : Display F O) : Prop :=
  s.cloud_.alpha = s.alpha_

end Invariants

section WriteIndices

variable {F : Type}

/-- The values of `cnt_total_points` at the writes `points[cnt_total_points]`
of the inner loop of the Points branch, over the points of one polygon, in
the order of execution, and the value of `cnt_total_points` after the
loop. -/
def polygonWriteIndices : List (Point32 F) → Nat → List Nat × Nat
  | [], cnt => ([], cnt)
  | _ :: rest, cnt =>
    let later := polygonWriteIndices rest ((cnt + 1) % UINT32)
    (cnt :: later.1, later.2)

/-- The values of `cnt_total_points` at the writes `points[cnt_total_points]`
of the nested loops of the Points branch, in the order of execution, and the
value of `cnt_total_points` when the loops end. -/
def writeIndices : List (Polygon3D F) → Nat → List Nat × Nat
  | [], cnt => ([], cnt)
  | poly :: rest, cnt =>
    let first := polygonWriteIndices poly.points cnt
    let later := writeIndices rest first.2
    (first.1 ++ later.1, later.2)

end WriteIndices

/-! ## The loops of `processMessage` -/

section Loops

variable {F R O : Type}

theorem foldl_count (polygons : List (Polygon3D F)) (n : Nat) :
    polygons.foldl (fun n poly => (n + poly.points.length) % UINT32) (n % UINT32)
      = (n + (polygons.map fun poly => poly.points.length).sum) % UINT32 := by
  induction polygons generalizing n with
  | nil => simp
  | cons poly rest ih =>
    simp only [List.foldl_cons, List.map_cons, List.sum_cons]
    rw [Nat.mod_add_mod, ih, Nat.add_assoc]

theorem countTotalPoints_eq (m : PolygonalMap F) :
    countTotalPoints m.polygons = totalPoints m % UINT32 := by
  have h := foldl_count m.polygons 0
  simpa [countTotalPoints, totalPoints] using h

theorem fillPolygon_ok (s : Display F O) (poly : Polygon3D F) (z : CloudPoint F) :
    ∀ (pts : List (Point32 F)) (written : List (CloudPoint F)) (k : Nat),
      pts.length ≤ k → written.length + k < UINT32 →
      fillPolygon s poly pts (written ++ List.replicate k z, written.length)
        = some (written ++ pts.map (currentPoint s poly) ++ List.replicate (k - pts.length) z,
            written.length + pts.length) := by
  intro pts
  induction pts with
  | nil => intro written k _ _; simp [fillPolygon]
  | cons pt rest ih =>
    intro written k hk hlt
    obtain ⟨k1, rfl⟩ : ∃ k1, k = k1 + 1 := ⟨k - 1, by simp at hk; omega⟩
    have hlen : rest.length ≤ k1 := by simp at hk; omega
    have hw : writePoint (written ++ List.replicate (k1 + 1) z) written.length
        (currentPoint s poly pt)
        = some ((written ++ [currentPoint s poly pt]) ++ List.replicate k1 z) := by
      simp [writePoint, List.replicate_succ]
    have hmod : (written.length + 1) % UINT32 = (written ++ [currentPoint s poly pt]).length := by
      rw [Nat.mod_eq_of_lt (by omega)]; simp
    have h := ih (written ++ [currentPoint s poly pt]) k1 hlen (by simp; omega)
    simp only [fillPolygon, hw, hmod, h]
    simp [Nat.add_assoc, Nat.add_comm 1]

theorem fillPoints_ok (s : Display F O) (z : CloudPoint F) :
    ∀ (polygons : List (Polygon3D F)) (written : List (CloudPoint F)) (k : Nat),
      (polygons.map fun poly => poly.points.length).sum ≤ k → written.length + k < UINT32 →
      fillPoints s polygons (written ++ List.replicate k z, written.length)
        = some (written ++ (polygons.flatMap fun poly => poly.points.map (currentPoint s poly))
              ++ List.replicate (k - (polygons.map fun poly => poly.points.length).sum) z,
            written.length + (polygons.map fun poly => poly.points.length).sum) := by
  intro polygons
  induction polygons with
  | nil => intro written k _ _; simp [fillPoints]
  | cons poly rest ih =>
    intro written k hk hlt
    simp only [List.map_cons, List.sum_cons] at hk
    have h1 := fillPolygon_ok s poly z poly.points written k (by omega) hlt
    have h2 := ih (written ++ poly.points.map (currentPoint s poly))
      (k - poly.points.length) (by omega) (by simp; omega)
    simp only [List.length_append, List.length_map] at h2
    simp only [fillPoints, h1, h2, List.map_cons, List.sum_cons, List.flatMap_cons]
    simp [Nat.add_assoc, Nat.sub_add_eq]

theorem fillPolygon_fits (s : Display F O) (poly : Polygon3D F) :
    ∀ (pts : List (Point32 F)) (points : List (CloudPoint F)) (cnt : Nat),
      cnt + pts.length ≤ points.length → points.length < UINT32 →
      ∃ points1, fillPolygon s poly pts (points, cnt) = some (points1, cnt + pts.length)
        ∧ points1.length = points.length := by
  intro pts
  induction pts with
  | nil => intro points cnt _ _; exact ⟨points, by simp [fillPolygon]⟩
  | cons pt rest ih =>
    intro points cnt hfit hlt
    simp only [List.length_cons] at hfit
    have hmod : (cnt + 1) % UINT32 = cnt + 1 := Nat.mod_eq_of_lt (by omega)
    obtain ⟨points1, h1, h2⟩ := ih (points.set cnt (currentPoint s poly pt)) (cnt + 1)
      (by simp; omega) (by simpa using hlt)
    refine ⟨points1, ?_, by simpa using h2⟩
    have hw : writePoint points cnt (currentPoint s poly pt)
        = some (points.set cnt (currentPoint s poly pt)) := by
      simp only [writePoint]; rw [if_pos (by omega)]
    simp only [fillPolygon, hw, hmod, h1, List.length_cons]
    simp [Nat.add_assoc, Nat.add_comm 1]

theorem fillPolygon_overrun (s : Display F O) (poly : Polygon3D F) :
    ∀ (pts : List (Point32 F)) (points : List (CloudPoint F)) (cnt : Nat),
      cnt ≤ points.length → points.length < UINT32 → points.length < cnt + pts.length →
      fillPolygon s poly pts (points, cnt) = none := by
  intro pts
  induction pts with
  | nil => intro points cnt h1 _ h3; simp at h3; omega
  | cons pt rest ih =>
    intro points cnt hle hlt hover
    simp only [List.length_cons] at hover
    by_cases hc : cnt < points.length
    · have hmod : (cnt + 1) % UINT32 = cnt + 1 := Nat.mod_eq_of_lt (by omega)
      have hw : writePoint points cnt (currentPoint s poly pt)
          = some (points.set cnt (currentPoint s poly pt)) := by
        simp only [writePoint]; rw [if_pos hc]
      simp only [fillPolygon, hw, hmod]
      exact ih _ _ (by simp; omega) (by simpa using hlt) (by simp; omega)
    · have hw : writePoint points cnt (currentPoint s poly pt) = none := by
        simp only [writePoint]; rw [if_neg hc]
      simp only [fillPolygon, hw]

theorem fillPoints_overrun (s : Display F O) :
    ∀ (polygons : List (Polygon3D F)) (points : List (CloudPoint F)) (cnt : Nat),
      cnt ≤ points.length → points.length < UINT32 →
      points.length < cnt + (polygons.map fun poly => poly.points.length).sum →
      fillPoints s polygons (points, cnt) = none := by
  intro polygons
  induction polygons with
  | nil => intro points cnt h1 _ h3; simp at h3; omega
  | cons poly rest ih =>
    intro points cnt hle hlt hover
    simp only [List.map_cons, List.sum_cons] at hover
    by_cases hfit : cnt + poly.points.length ≤ points.length
    · obtain ⟨points1, h1, h2⟩ := fillPolygon_fits s poly poly.points points cnt hfit hlt
      simp only [fillPoints, h1]
      exact ih points1 _ (by omega) (by omega) (by omega)
    · have h1 := fillPolygon_overrun s poly poly.points points cnt hle hlt (by omega)
      simp only [fillPoints, h1]

theorem setLastColour_append (c : ColourValue F) (vs : List (Vertex F)) (v : Vertex F) :
    setLastColour c (vs ++ [v]) = vs ++ [{ v with colour := some c }] := by
  induction vs with
  | nil => simp [setLastColour]
  | cons w ws ih =>
    cases ws with
    | nil => simp [setLastColour]
    | cons w1 ws1 =>
      have h : setLastColour c (w :: w1 :: (ws1 ++ [v]))
          = w :: setLastColour c (w1 :: (ws1 ++ [v])) := rfl
      simp only [List.cons_append] at ih ⊢
      rw [h, ih]

theorem emitVertices_open (s : Display F O) (poly : Polygon3D F) :
    ∀ (pts : List (Point32 F)) (done : List (Section F)) (sec : Section F),
      emitVertices s poly pts { sections := done, current := some sec }
        = { sections := done
            current := some { sec with vertices := sec.vertices ++ pts.map (stripVertex s poly) } } := by
  intro pts
  induction pts with
  | nil => intro done sec; simp [emitVertices]
  | cons pt rest ih =>
    intro done sec
    simp only [emitVertices, ManualObject.position, ManualObject.colour, Option.map_some',
      setLastColour_append, ih, List.map_cons]
    simp [stripVertex]

theorem emitPolygons_closed (s : Display F O) :
    ∀ (polygons : List (Polygon3D F)) (done : List (Section F)),
      emitPolygons s polygons { sections := done, current := none }
        = { sections := done ++ polygons.map (lineStrip s), current := none } := by
  intro polygons
  induction polygons with
  | nil => intro done; simp [emitPolygons]
  | cons poly rest ih =>
    intro done
    simp only [emitPolygons, ManualObject.estimateVertexCount, ManualObject.begin,
      emitVertices_open, ManualObject.end, ih, List.map_cons]
    simp [lineStrip]

end Loops

/-! ## One synchronisation pass in closed form -/

section Pass

variable {F R O : Type}

theorem transformToFixedFrame_after_clear [Zero F] (env : Env F R O) (tf : FrameService F R)
    (s : Display F O) :
    transformToFixedFrame tf (clear (s.log Event.lock)) (sourcePose env (clear (s.log Event.lock)))
      = (resolvedPose env tf s,
          { clear s with
            events := (if transformThrows env tf s then [Event.rosError] else [])
              ++ Event.lock :: s.events }) := by
  have hp : sourcePose env (clear (s.log Event.lock)) = sourcePose env s := rfl
  have hf : (clear (s.log Event.lock)).fixed_frame_ = s.fixed_frame_ := rfl
  rw [hp]
  unfold transformToFixedFrame resolvedPose transformThrows
  rw [hf]
  cases tf.canTransform s.fixed_frame_ "map" with
  | false => rfl
  | true =>
    cases tf.transformPose s.fixed_frame_ (sourcePose env s) with
    | none => rfl
    | some p => rfl

theorem buildGeometry_lines [Zero F] (s : Display F O) (h : s.render_operation_ ≠ PPoints) :
    buildGeometry s
      = some { s with
          manual_object_ :=
            { sections := s.message_.polygons.map (lineStrip s), current := none } } := by
  unfold buildGeometry
  simp only [if_neg h, ManualObject.clear, emitPolygons_closed, List.nil_append]

theorem length_cloudPoints (s : Display F O) (m : PolygonalMap F) :
    (cloudPoints s m.polygons).length = totalPoints m := by
  simp [cloudPoints, totalPoints, List.length_flatMap, Function.comp_def]

theorem buildGeometry_points [Zero F] (s : Display F O) (h : s.render_operation_ = PPoints)
    (hP : totalPoints s.message_ < UINT32) :
    buildGeometry s
      = some { s with
          manual_object_ := { sections := [], current := none }
          cloud_ := { s.cloud_ with points := cloudPoints s s.message_.polygons }
          events := (if totalPoints s.message_ = 0 then []
            else [Event.addPoints (totalPoints s.message_)]) ++ s.events } := by
  have hfill : fillPoints s s.message_.polygons
      (List.replicate (countTotalPoints s.message_.polygons) CloudPoint.zero, 0)
      = some (cloudPoints s s.message_.polygons, totalPoints s.message_) := by
    have h1 := fillPoints_ok s CloudPoint.zero s.message_.polygons [] (totalPoints s.message_)
      (le_refl _) (by simpa using hP)
    rw [countTotalPoints_eq, Nat.mod_eq_of_lt hP]
    simpa [cloudPoints, totalPoints] using h1
  have hlen := length_cloudPoints s s.message_
  unfold buildGeometry
  simp only [if_pos h, hfill]
  by_cases h0 : totalPoints s.message_ = 0
  · have hnil : cloudPoints s s.message_.polygons = [] := by
      apply List.eq_nil_of_length_eq_zero; rw [hlen, h0]
    simp [h0, hnil, PointCloud.clear, ManualObject.clear]
  · have hne : cloudPoints s s.message_.polygons ≠ [] := by
      intro hnil; rw [hnil] at hlen; exact h0 hlen.symm
    simp [h0, hne, hlen, PointCloud.clear, ManualObject.clear, PointCloud.addPoints,
      Display.log]

theorem buildGeometry_overflow [Zero F] (s : Display F O) (h : s.render_operation_ = PPoints)
    (hP : UINT32 ≤ totalPoints s.message_) :
    buildGeometry s = none := by
  have hpos : 0 < UINT32 := by decide
  have hmod : totalPoints s.message_ % UINT32 < UINT32 := Nat.mod_lt _ hpos
  have hfill := fillPoints_overrun s s.message_.polygons
    (List.replicate (totalPoints s.message_ % UINT32) CloudPoint.zero) 0 (Nat.zero_le _)
    (by simpa using hmod) (by simp only [List.length_replicate, totalPoints] at *; omega)
  unfold buildGeometry
  simp only [if_pos h, countTotalPoints_eq, hfill]

theorem processMessage_lines [Zero F] (env : Env F R O) (tf : FrameService F R)
    (s : Display F O) (h : s.render_operation_ ≠ PPoints) :
    processMessage env tf s
      = some { s with
          manual_object_ :=
            { sections := s.message_.polygons.map (lineStrip s), current := none }
          cloud_ := s.cloud_.clear
          scene_node_ :=
            { position := passPosition env tf s
              orientation := passOrientation env tf s
              visible := s.scene_node_.visible }
          events := passEvents env tf s 0 } := by
  have hb := buildGeometry_lines
    ({ clear s with
        events := (if transformThrows env tf s then [Event.rosError] else [])
          ++ Event.lock :: s.events }) h
  simp only [processMessage, transformToFixedFrame_after_clear, hb]
  rfl

theorem processMessage_points [Zero F] (env : Env F R O) (tf : FrameService F R)
    (s : Display F O) (h : s.render_operation_ = PPoints)
    (hP : totalPoints s.message_ < UINT32) :
    processMessage env tf s
      = some { s with
          manual_object_ := { sections := [], current := none }
          cloud_ := { s.cloud_ with points := cloudPoints s s.message_.polygons }
          scene_node_ :=
            { position := passPosition env tf s
              orientation := passOrientation env tf s
              visible := s.scene_node_.visible }
          events := passEvents env tf s (totalPoints s.message_) } := by
  have hb := buildGeometry_points
    ({ clear s with
        events := (if transformThrows env tf s then [Event.rosError] else [])
          ++ Event.lock :: s.events }) h hP
  simp only [processMessage, transformToFixedFrame_after_clear, hb]
  rfl

theorem processMessage_overflow [Zero F] (env : Env F R O) (tf : FrameService F R)
    (s : Display F O) (h : s.render_operation_ = PPoints)
    (hP : UINT32 ≤ totalPoints s.message_) :
    processMessage env tf s = none := by
  have hb := buildGeometry_overflow
    ({ clear s with
        events := (if transformThrows env tf s then [Event.rosError] else [])
          ++ Event.lock :: s.events }) h hP
  simp only [processMessage, transformToFixedFrame_after_clear, hb]
  rfl

theorem processMessage_isSome [Zero F] (env : Env F R O) (tf : FrameService F R)
    (s : Display F O)
    (h : s.render_operation_ ≠ PPoints ∨ totalPoints s.message_ < UINT32) :
    (processMessage env tf s).isSome = true := by
  by_cases hm : s.render_operation_ = PPoints
  · rcases h with h | h
    · exact absurd hm h
    · rw [processMessage_points env tf s hm h]; rfl
  · rw [processMessage_lines env tf s hm]; rfl

theorem map_coords_cloudPoints (s : Display F O) (m : PolygonalMap F) :
    (cloudPoints s m.polygons).map CloudPoint.coords = traversal m := by
  simp only [cloudPoints, traversal, List.map_flatMap, List.map_map]
  congr 1
  funext poly
  simp [Function.comp_def, currentPoint, CloudPoint.coords]

end Pass

/-! ## Points mode -/

section PointsMode

variable {F R O : Type}

/-- C1: for every message the display can receive, with N polygons and P
points in total (N = 0 and polygons without points included), a pass in
Points mode completes and leaves in the cloud exactly P points, whose
coordinates are the points of the message in traversal order (polygon index
ascending, then point index ascending), whatever the cloud held before; when
P = 0 the cloud is empty and `addPoints` is not called, otherwise `addPoints`
is called once, with P points.  The messages the display can receive are
those the ROS node delivers into `message_`; they have fewer than `2 ^ 32`
points, which is the hypothesis `hfits`. -/
theorem points_pass_commits_traversal [Zero F] (env : Env F R O) (tf : FrameService F R)
    (s : Display F O) (hmode : s.render_operation_ = PPoints)
    (hfits : totalPoints s.message_ < UINT32) :
    ∃ s1, processMessage env tf s = some s1
      ∧ s1.cloud_.points.length = totalPoints s.message_
      ∧ s1.cloud_.points.map CloudPoint.coords = traversal s.message_
      ∧ (totalPoints s.message_ = 0 →
          s1.cloud_.points = [] ∧ addPointsRequests s1.events = addPointsRequests s.events)
      ∧ (totalPoints s.message_ ≠ 0 →
          addPointsRequests s1.events
            = Event.addPoints (totalPoints s.message_) :: addPointsRequests s.events) := by
  refine ⟨_, processMessage_points env tf s hmode hfits, ?_, ?_, ?_, ?_⟩
  · exact length_cloudPoints s s.message_
  · exact map_coords_cloudPoints s s.message_
  · intro h0
    constructor
    · apply List.eq_nil_of_length_eq_zero
      show (cloudPoints s s.message_.polygons).length = 0
      rw [length_cloudPoints, h0]
    · show addPointsRequests (passEvents env tf s (totalPoints s.message_)) = _
      rw [h0]
      unfold passEvents addPointsRequests
      cases transformThrows env tf s <;> simp
  · intro h0
    show addPointsRequests (passEvents env tf s (totalPoints s.message_)) = _
    unfold passEvents addPointsRequests
    cases transformThrows env tf s <;> simp [h0]

/-- Witness of C1: the two-polygon message of four points. -/
theorem points_pass_commits_traversal_witness :
    demoPointsDisplay.render_operation_ = PPoints
      ∧ totalPoints demoPointsDisplay.message_ < UINT32
      ∧ ∃ s1, processMessage demoEnv demoNoTransform demoPointsDisplay = some s1
        ∧ s1.cloud_.points.length = totalPoints demoPointsDisplay.message_
        ∧ s1.cloud_.points.map CloudPoint.coords = traversal demoPointsDisplay.message_
        ∧ (totalPoints demoPointsDisplay.message_ = 0 →
            s1.cloud_.points = []
              ∧ addPointsRequests s1.events = addPointsRequests demoPointsDisplay.events)
        ∧ (totalPoints demoPointsDisplay.message_ ≠ 0 →
            addPointsRequests s1.events
              = Event.addPoints (totalPoints demoPointsDisplay.message_)
                  :: addPointsRequests demoPointsDisplay.events) :=
  ⟨by decide, by decide,
    points_pass_commits_traversal demoEnv demoNoTransform demoPointsDisplay (by decide)
      (by decide)⟩

end PointsMode

/-! ## Lines mode -/

section LinesMode

variable {F R O : Type}

/-- C2: for every message with N polygons, a pass in Lines mode (any render
operation other than Points) completes and leaves in the manual object
exactly N finished primitives, all line strips, in polygon order, none left
open; the vertices of the i-th primitive are the points of polygon i, as many
and in the same order, so no vertex of one polygon is in the primitive of
another. -/
theorem lines_pass_one_strip_per_polygon [Zero F] (env : Env F R O) (tf : FrameService F R)
    (s : Display F O) (hmode : s.render_operation_ ≠ PPoints) :
    ∃ s1, processMessage env tf s = some s1
      ∧ s1.manual_object_.current = none
      ∧ s1.manual_object_.sections.length = s.message_.polygons.length
      ∧ (∀ sec ∈ s1.manual_object_.sections, sec.op = OperationType.OT_LINE_STRIP)
      ∧ s1.manual_object_.sections.map (fun sec => sec.vertices.map Vertex.coords)
          = s.message_.polygons.map (fun poly => poly.points)
      ∧ ∀ i : Nat,
          (s1.manual_object_.sections[i]?).map (fun sec => sec.vertices.map Vertex.coords)
            = (s.message_.polygons[i]?).map (fun poly => poly.points) := by
  have hmap : (s.message_.polygons.map (lineStrip s)).map
      (fun sec => sec.vertices.map Vertex.coords)
      = s.message_.polygons.map (fun poly => poly.points) := by
    rw [List.map_map]
    apply List.map_congr_left
    intro poly _
    simp [lineStrip, stripVertex, Vertex.coords, Function.comp_def]
  refine ⟨_, processMessage_lines env tf s hmode, rfl, ?_, ?_, hmap, ?_⟩
  · simp
  · intro sec hsec
    obtain ⟨poly, _, rfl⟩ := List.mem_map.mp hsec
    rfl
  · intro i
    have h := congrArg (fun l => l[i]?) hmap
    simpa only [List.getElem?_map] using h

/-- Witness of C2: the two-polygon message in Lines mode. -/
theorem lines_pass_one_strip_per_polygon_witness :
    demoDisplay.render_operation_ ≠ PPoints
      ∧ ∃ s1, processMessage demoEnv demoNoTransform demoDisplay = some s1
        ∧ s1.manual_object_.current = none
        ∧ s1.manual_object_.sections.length = demoDisplay.message_.polygons.length
        ∧ (∀ sec ∈ s1.manual_object_.sections, sec.op = OperationType.OT_LINE_STRIP)
        ∧ s1.manual_object_.sections.map (fun sec => sec.vertices.map Vertex.coords)
            = demoDisplay.message_.polygons.map (fun poly => poly.points)
        ∧ ∀ i : Nat,
            (s1.manual_object_.sections[i]?).map (fun sec => sec.vertices.map Vertex.coords)
              = (demoDisplay.message_.polygons[i]?).map (fun poly => poly.points) :=
  ⟨by decide, lines_pass_one_strip_per_polygon demoEnv demoNoTransform demoDisplay (by decide)⟩

end LinesMode

/-! ## Colours -/

section Colours

variable {F R O : Type}

theorem resolveColour_eq (s : Display F O) (poly : Polygon3D F) :
    resolveColour s poly = effectiveColor s.override_color_ s.color_ s.alpha_ poly.color := by
  unfold resolveColour effectiveColor
  cases s.override_color_ <;> rfl

theorem totalPoints_replaceAlpha (g : ColorRGBA F → F) (m : PolygonalMap F) :
    totalPoints (replaceAlpha g m) = totalPoints m := by
  simp [totalPoints, replaceAlpha, Function.comp_def]

theorem cloudPoints_replaceAlpha (s : Display F O) (g : ColorRGBA F → F) (m : PolygonalMap F) :
    cloudPoints { s with message_ := replaceAlpha g s.message_ } (replaceAlpha g m).polygons
      = cloudPoints s m.polygons := by
  simp only [cloudPoints, replaceAlpha, List.flatMap_map]
  rfl

theorem lineStrips_replaceAlpha (s : Display F O) (g : ColorRGBA F → F) (m : PolygonalMap F) :
    (replaceAlpha g m).polygons.map (lineStrip { s with message_ := replaceAlpha g s.message_ })
      = m.polygons.map (lineStrip s) := by
  simp only [replaceAlpha, List.map_map]
  apply List.map_congr_left
  intro poly _
  rfl

theorem processMessage_replaceAlpha [Zero F] (env : Env F R O) (tf : FrameService F R)
    (s : Display F O) (g : ColorRGBA F → F) :
    (processMessage env tf { s with message_ := replaceAlpha g s.message_ }).map scene
      = (processMessage env tf s).map scene := by
  by_cases hm : s.render_operation_ = PPoints
  · by_cases hP : totalPoints s.message_ < UINT32
    · rw [processMessage_points env tf s hm hP,
        processMessage_points env tf { s with message_ := replaceAlpha g s.message_ } hm
          (by rw [totalPoints_replaceAlpha]; exact hP)]
      simp only [Option.map_some', scene, cloudPoints_replaceAlpha]
      rfl
    · rw [processMessage_overflow env tf s hm (Nat.le_of_not_lt hP),
        processMessage_overflow env tf { s with message_ := replaceAlpha g s.message_ } hm
          (by rw [totalPoints_replaceAlpha]; exact Nat.le_of_not_lt hP)]
  · rw [processMessage_lines env tf s hm,
      processMessage_lines env tf { s with message_ := replaceAlpha g s.message_ } hm]
    simp only [Option.map_some', scene, lineStrips_replaceAlpha]
    rfl

end Colours

/-! ## What a pass leaves behind -/

section PassResult

variable {F R O : Type}

theorem processMessage_some [Zero F] (env : Env F R O) (tf : FrameService F R)
    (s s1 : Display F O) (h : processMessage env tf s = some s1) :
    s1 = { s with
        manual_object_ := (committedGeometry s).1
        cloud_ := { s.cloud_ with points := (committedGeometry s).2 }
        scene_node_ :=
          { position := passPosition env tf s
            orientation := passOrientation env tf s
            visible := s.scene_node_.visible }
        events := passEvents env tf s (submitted s) } := by
  by_cases hm : s.render_operation_ = PPoints
  · by_cases hP : totalPoints s.message_ < UINT32
    · rw [processMessage_points env tf s hm hP] at h
      cases h
      simp only [committedGeometry, submitted, if_pos hm]
    · rw [processMessage_overflow env tf s hm (Nat.le_of_not_lt hP)] at h
      cases h
  · rw [processMessage_lines env tf s hm] at h
    cases h
    simp only [committedGeometry, submitted, if_neg hm, PointCloud.clear]

theorem processMessage_eq_none_iff [Zero F] (env : Env F R O) (tf : FrameService F R)
    (s : Display F O) :
    processMessage env tf s = none
      ↔ s.render_operation_ = PPoints ∧ UINT32 ≤ totalPoints s.message_ := by
  constructor
  · intro h
    by_cases hm : s.render_operation_ = PPoints
    · by_cases hP : totalPoints s.message_ < UINT32
      · rw [processMessage_points env tf s hm hP] at h; cases h
      · exact ⟨hm, Nat.le_of_not_lt hP⟩
    · rw [processMessage_lines env tf s hm] at h; cases h
  · rintro ⟨hm, hP⟩
    exact processMessage_overflow env tf s hm hP

theorem processMessage_geometry [Zero F] (env : Env F R O) (tf : FrameService F R)
    (s s1 : Display F O) (h : processMessage env tf s = some s1) :
    geometry s1 = committedGeometry s := by
  rw [processMessage_some env tf s s1 h]
  rfl

theorem processMessage_map_geometry [Zero F] (env : Env F R O) (tf tf1 : FrameService F R)
    (s : Display F O) :
    (processMessage env tf s).map geometry = (processMessage env tf1 s).map geometry := by
  cases h : processMessage env tf s with
  | none =>
    have h1 := (processMessage_eq_none_iff env tf1 s).mpr
      ((processMessage_eq_none_iff env tf s).mp h)
    rw [h1]
  | some s1 =>
    cases h1 : processMessage env tf1 s with
    | none =>
      have h2 := (processMessage_eq_none_iff env tf s).mpr
        ((processMessage_eq_none_iff env tf1 s).mp h1)
      rw [h2] at h; cases h
    | some s2 =>
      simp only [Option.map_some', processMessage_geometry env tf s s1 h,
        processMessage_geometry env tf1 s s2 h1]

theorem resolvedPose_of_failure [Zero F] (env : Env F R O) (tf : FrameService F R)
    (s : Display F O)
    (hfail : tf.canTransform s.fixed_frame_ "map" = false
      ∨ tf.transformPose s.fixed_frame_ (sourcePose env s) = none) :
    resolvedPose env tf s = sourcePose env s := by
  unfold resolvedPose
  rcases hfail with h | h
  · rw [h]; rfl
  · rw [h]; cases tf.canTransform s.fixed_frame_ "map" <;> rfl

end PassResult

/-! ## The transform step -/

section TransformFallback

variable {F R O : Type}

/-- C4: when `canTransform` answers false, or `transformPose` throws a
transform exception, the pose of the pass stays the source pose, origin
`(0, 0, z_position_)` and rotation `btQuaternion (0, 0, 0)`; the pass
completes exactly when a pass with any other state of the listener completes
(always in Lines mode or below `2 ^ 32` points), with the same geometry; and
the position and orientation it commits to the scene node are those of the
source pose, taken through `robotToOgre` and `ogreMatrixFromRobotEulers`. -/
theorem transform_failure_falls_back [Zero F] (env : Env F R O) (tf : FrameService F R)
    (s : Display F O)
    (hfail : tf.canTransform s.fixed_frame_ "map" = false
      ∨ tf.transformPose s.fixed_frame_ (sourcePose env s) = none) :
    resolvedPose env tf s
        = { origin := { x := 0, y := 0, z := s.z_position_ }
            basis := env.btQuaternion 0 0 0
            frame_id := "map" }
      ∧ ((s.render_operation_ ≠ PPoints ∨ totalPoints s.message_ < UINT32) →
          (processMessage env tf s).isSome = true)
      ∧ (∀ tf1 : FrameService F R,
          (processMessage env tf s).map geometry = (processMessage env tf1 s).map geometry)
      ∧ ∀ s1, processMessage env tf s = some s1 →
          s1.scene_node_.position = env.robotToOgre { x := 0, y := 0, z := s.z_position_ }
          ∧ s1.scene_node_.orientation
              = env.ogreMatrixFromRobotEulers
                  (env.getEulerZYX (env.btQuaternion 0 0 0)).1
                  (env.getEulerZYX (env.btQuaternion 0 0 0)).2.1
                  (env.getEulerZYX (env.btQuaternion 0 0 0)).2.2
          ∧ geometry s1 = committedGeometry s := by
  have hpose := resolvedPose_of_failure env tf s hfail
  refine ⟨hpose, processMessage_isSome env tf s, fun tf1 => processMessage_map_geometry env tf tf1 s,
    ?_⟩
  intro s1 h1
  refine ⟨?_, ?_, processMessage_geometry env tf s s1 h1⟩
  · rw [processMessage_some env tf s s1 h1]
    show passPosition env tf s = _
    unfold passPosition
    rw [hpose]; rfl
  · rw [processMessage_some env tf s s1 h1]
    show passOrientation env tf s = _
    unfold passOrientation
    rw [hpose]; rfl

/-- Witness of C4: a listener that reports a transform and then throws; the
node ends at `robotToOgre (0, 0, 4) = (0, 4, 0)`. -/
theorem transform_failure_falls_back_witness :
    (demoThrowingTransform.canTransform demoDisplay.fixed_frame_ "map" = false
        ∨ demoThrowingTransform.transformPose demoDisplay.fixed_frame_
            (sourcePose demoEnv demoDisplay) = none)
      ∧ ∃ s1, processMessage demoEnv demoThrowingTransform demoDisplay = some s1
          ∧ s1.scene_node_.position = { x := 0, y := 4, z := 0 }
          ∧ geometry s1 = committedGeometry demoDisplay :=
  ⟨Or.inr rfl,
    _, rfl,
    ((transform_failure_falls_back demoEnv demoThrowingTransform demoDisplay (Or.inr rfl)).2.2.2
      _ rfl).1,
    ((transform_failure_falls_back demoEnv demoThrowingTransform demoDisplay (Or.inr rfl)).2.2.2
      _ rfl).2.2⟩

end TransformFallback

/-! ## The pending slot -/

section PendingSlot

variable {F R O : Type}

theorem update_of_flag [Zero F] (env : Env F R O) (tf : FrameService F R) (dt : F)
    (s : Display F O) (h : s.new_message_ = true) :
    update env tf dt s
      = (processMessage env tf s).map fun s1 => causeRender { s1 with new_message_ := false } := by
  unfold update
  rw [if_pos h]

theorem update_of_no_flag [Zero F] (env : Env F R O) (tf : FrameService F R) (dt : F)
    (s : Display F O) (h : s.new_message_ = false) :
    update env tf dt s = some s := by
  unfold update
  rw [h]; rfl

/-- C5: the slot holds one message.  After the deliveries of A and then B the
display is in the very state the delivery of B alone leads to, so the next
`update` does what it does after B alone; it completes in Lines mode and for
every B of fewer than `2 ^ 32` points; and when it completes the scene holds
the geometry of B only (the line strips of B and no point, or the points of
B and no line strip), the slot holds B and the new-data flag is false. -/
theorem latest_message_wins [Zero F] (env : Env F R O) (tf : FrameService F R) (dt : F)
    (s : Display F O) (A B : PolygonalMap F) :
    deliver B (deliver A s) = deliver B s
      ∧ update env tf dt (deliver B (deliver A s)) = update env tf dt (deliver B s)
      ∧ ((s.render_operation_ ≠ PPoints ∨ totalPoints B < UINT32) →
          (update env tf dt (deliver B (deliver A s))).isSome = true)
      ∧ ∀ s1, update env tf dt (deliver B (deliver A s)) = some s1 →
          s1.message_ = B ∧ s1.new_message_ = false
          ∧ (s.render_operation_ ≠ PPoints →
              s1.manual_object_ = { sections := B.polygons.map (lineStrip s), current := none }
              ∧ s1.cloud_.points = [])
          ∧ (s.render_operation_ = PPoints →
              s1.manual_object_ = { sections := [], current := none }
              ∧ s1.cloud_.points = cloudPoints s B.polygons) := by
  have hflag : (deliver B (deliver A s)).new_message_ = true := rfl
  refine ⟨rfl, rfl, ?_, ?_⟩
  · intro hdef
    rw [update_of_flag env tf dt _ hflag, Option.isSome_map']
    exact processMessage_isSome env tf _ hdef
  · intro s1 h1
    rw [update_of_flag env tf dt _ hflag] at h1
    cases hp : processMessage env tf (deliver B (deliver A s)) with
    | none => rw [hp] at h1; cases h1
    | some s2 =>
      rw [hp] at h1
      cases h1
      have hs2 := processMessage_some env tf _ s2 hp
      refine ⟨by rw [hs2]; rfl, rfl, ?_, ?_⟩
      · intro hm
        have hm1 : (deliver B (deliver A s)).render_operation_ ≠ PPoints := hm
        rw [hs2]
        simp [causeRender, Display.log, committedGeometry, hm1]
        rfl
      · intro hm
        have hm1 : (deliver B (deliver A s)).render_operation_ = PPoints := hm
        rw [hs2]
        simp [causeRender, Display.log, committedGeometry, hm1]
        rfl

/-- C6: a second pass right after a completed one, with the same state of the
listener, completes and leaves the display as the first pass left it, the log
of requests apart: same primitives, same node position and orientation.  A
second `update` right after a completed one changes nothing at all, and
`update` with the new-data flag false changes nothing at all.  A pass
completes in Lines mode and on every message of fewer than `2 ^ 32`
points. -/
theorem synchronisation_is_idempotent [Zero F] (env : Env F R O) (tf : FrameService F R)
    (dt : F) (s : Display F O) :
    ((s.render_operation_ ≠ PPoints ∨ totalPoints s.message_ < UINT32) →
        (processMessage env tf s).isSome = true)
      ∧ (∀ s1, processMessage env tf s = some s1 →
          ∃ s2, processMessage env tf s1 = some s2
            ∧ scene s2 = scene s1 ∧ { s2 with events := s1.events } = s1)
      ∧ (∀ s1, update env tf dt s = some s1 → update env tf dt s1 = some s1)
      ∧ (s.new_message_ = false → update env tf dt s = some s) := by
  have hpass : ∀ s1, processMessage env tf s = some s1 →
      ∃ s2, processMessage env tf s1 = some s2
        ∧ scene s2 = scene s1 ∧ { s2 with events := s1.events } = s1 := by
    intro s1 h1
    have hs1 := processMessage_some env tf s s1 h1
    have hmode : s1.render_operation_ = s.render_operation_ := by rw [hs1]
    have hmsg : s1.message_ = s.message_ := by rw [hs1]
    have hdef : (processMessage env tf s1).isSome = true := by
      apply processMessage_isSome
      rw [hmode, hmsg]
      by_cases hm : s.render_operation_ = PPoints
      · right
        by_contra hP
        rw [processMessage_overflow env tf s hm (Nat.le_of_not_lt hP)] at h1
        cases h1
      · exact Or.inl hm
    obtain ⟨s2, h2⟩ := Option.isSome_iff_exists.mp hdef
    obtain ⟨ev2, hs2⟩ : ∃ ev2, s2 = { s1 with
        manual_object_ := (committedGeometry s1).1
        cloud_ := { s1.cloud_ with points := (committedGeometry s1).2 }
        scene_node_ :=
          { position := passPosition env tf s1
            orientation := passOrientation env tf s1
            visible := s1.scene_node_.visible }
        events := ev2 } := ⟨_, processMessage_some env tf s1 s2 h2⟩
    obtain ⟨ev1, hs1⟩ : ∃ ev1, s1 = { s with
        manual_object_ := (committedGeometry s).1
        cloud_ := { s.cloud_ with points := (committedGeometry s).2 }
        scene_node_ :=
          { position := passPosition env tf s
            orientation := passOrientation env tf s
            visible := s.scene_node_.visible }
        events := ev1 } := ⟨_, hs1⟩
    have hkey : { s2 with events := s1.events } = s1 := by
      subst hs2; subst hs1; rfl
    refine ⟨s2, h2, ?_, hkey⟩
    have hsc : scene s2 = scene { s2 with events := s1.events } := rfl
    rw [hsc, hkey]
  refine ⟨processMessage_isSome env tf s, hpass, ?_, update_of_no_flag env tf dt s⟩
  intro s1 h1
  cases hflag : s.new_message_ with
  | false =>
    rw [update_of_no_flag env tf dt s hflag] at h1
    cases h1
    exact update_of_no_flag env tf dt s hflag
  | true =>
    rw [update_of_flag env tf dt s hflag] at h1
    cases hp : processMessage env tf s with
    | none => rw [hp] at h1; cases h1
    | some s2 =>
      rw [hp] at h1
      cases h1
      exact update_of_no_flag env tf dt _ rfl

end PendingSlot

/-! ## The property setters -/

section Setters

variable {F R O : Type}

theorem causeRender_pass [Zero F] (env : Env F R O) (tf : FrameService F R)
    (s s1 : Display F O) (h : (processMessage env tf s).map causeRender = some s1) :
    s1 = { s with
        manual_object_ := (committedGeometry s).1
        cloud_ := { s.cloud_ with points := (committedGeometry s).2 }
        scene_node_ :=
          { position := passPosition env tf s
            orientation := passOrientation env tf s
            visible := s.scene_node_.visible }
        events := Event.causeRender :: passEvents env tf s (submitted s) } := by
  cases hp : processMessage env tf s with
  | none => rw [hp] at h; cases h
  | some s2 =>
    rw [hp] at h
    cases h
    rw [processMessage_some env tf s s2 hp]
    rfl

theorem notify_eq (present : Bool) (property : Property) (s : Display F O) :
    notify present property s = { s with events := (notify present property s).events } := by
  unfold notify
  cases present <;> rfl

theorem notify_events (present : Bool) (property : Property) (s : Display F O) :
    (notify present property s).events
      = (if present then [Event.changed property] else []) ++ s.events := by
  unfold notify
  cases present <;> rfl

theorem setter_pass [Zero F] (env : Env F R O) (tf : FrameService F R) (present : Bool)
    (property : Property) (s s1 : Display F O)
    (h : (processMessage env tf (notify present property s)).map causeRender = some s1) :
    s1 = { s with
        manual_object_ := (committedGeometry s).1
        cloud_ := { s.cloud_ with points := (committedGeometry s).2 }
        scene_node_ :=
          { position := passPosition env tf s
            orientation := passOrientation env tf s
            visible := s.scene_node_.visible }
        events := Event.causeRender ::
          passEvents env tf (notify present property s) (submitted s) } := by
  have h1 := causeRender_pass env tf _ s1 h
  obtain ⟨ev, hev⟩ : ∃ ev, notify present property s = { s with events := ev } :=
    ⟨_, notify_eq present property s⟩
  rw [hev] at h1 ⊢
  exact h1

theorem setter_isSome [Zero F] (env : Env F R O) (tf : FrameService F R) (present : Bool)
    (property : Property) (s : Display F O)
    (h : s.render_operation_ ≠ PPoints ∨ totalPoints s.message_ < UINT32) :
    ((processMessage env tf (notify present property s)).map causeRender).isSome = true := by
  rw [Option.isSome_map']
  apply processMessage_isSome
  rw [notify_eq]
  exact h

theorem setPointSize_eq (size : F) (s : Display F O) :
    setPointSize size s
      = { s with
          point_size_ := size
          cloud_ := s.cloud_.setBillboardDimensions size size
          events := Event.causeRender ::
            ((if s.point_size_property_ then [Event.changed Property.pointSize] else [])
              ++ s.events) } := by
  unfold setPointSize notify
  cases s.point_size_property_ <;> rfl

theorem setZPosition_eq [Zero F] (z : F) (s : Display F O) :
    setZPosition z s
      = { s with
          z_position_ := z
          scene_node_ := s.scene_node_.setPosition { x := 0, y := z, z := 0 }
          events := Event.causeRender ::
            ((if s.z_position_property_ then [Event.changed Property.zPosition] else [])
              ++ s.events) } := by
  unfold setZPosition notify
  cases s.z_position_property_ <;> rfl

/-- C7, as amended: after every setter the matching getter returns the value
set, the property object, if there is one, has been told of the change, and a
redraw has been requested last.  `setColor`, `setOverrideColor`,
`setRenderOperation` and `setAlpha` run a pass under the new configuration,
whether the display is enabled or not: between `lock` and `unlock` the
geometry is rebuilt from the message held.  They complete in Lines mode and
on messages of fewer than `2 ^ 32` points.  `setPointSize` sets the billboard
dimensions of the cloud, `setZPosition` moves the scene node to `(0, z, 0)`;
these two run no pass and leave the primitives as they are. -/
theorem setters_store_and_redraw [Zero F] (env : Env F R O) (tf : FrameService F R)
    (s : Display F O) :
    (∀ color : Color F,
        (totalPoints s.message_ < UINT32 → (setColor env tf color s).isSome = true)
        ∧ ∀ s1, setColor env tf color s = some s1 →
            getColor s1 = color
            ∧ geometry s1 = committedGeometry { s with color_ := color }
            ∧ s1.events = Event.causeRender ::
                passEvents env tf
                  (notify s.color_property_ Property.color { s with color_ := color })
                  (submitted s))
      ∧ (∀ override : Bool,
        (totalPoints s.message_ < UINT32 → (setOverrideColor env tf override s).isSome = true)
        ∧ ∀ s1, setOverrideColor env tf override s = some s1 →
            getOverrideColor s1 = override
            ∧ geometry s1 = committedGeometry { s with override_color_ := override }
            ∧ s1.events = Event.causeRender ::
                passEvents env tf
                  (notify s.override_color_property_ Property.overrideColor
                    { s with override_color_ := override })
                  (submitted s))
      ∧ (∀ op : Int,
        (totalPoints s.message_ < UINT32 → (setRenderOperation env tf op s).isSome = true)
        ∧ ∀ s1, setRenderOperation env tf op s = some s1 →
            getRenderOperation s1 = op
            ∧ geometry s1 = committedGeometry { s with render_operation_ := op }
            ∧ s1.events = Event.causeRender ::
                passEvents env tf
                  (notify s.render_operation_property_ Property.renderOperation
                    { s with render_operation_ := op })
                  (submitted { s with render_operation_ := op }))
      ∧ (∀ alpha : F,
        (totalPoints s.message_ < UINT32 → (setAlpha env tf alpha s).isSome = true)
        ∧ ∀ s1, setAlpha env tf alpha s = some s1 →
            getAlpha s1 = alpha ∧ s1.cloud_.alpha = alpha
            ∧ geometry s1 = committedGeometry { s with alpha_ := alpha }
            ∧ s1.events = Event.causeRender ::
                passEvents env tf
                  (notify s.alpha_property_ Property.alpha
                    { s with alpha_ := alpha, cloud_ := s.cloud_.setAlpha alpha })
                  (submitted s))
      ∧ (∀ size : F,
          getPointSize (setPointSize size s) = size
          ∧ (setPointSize size s).cloud_.width = size
          ∧ (setPointSize size s).cloud_.height = size
          ∧ geometry (setPointSize size s) = geometry s
          ∧ (setPointSize size s).scene_node_ = s.scene_node_
          ∧ (setPointSize size s).events = Event.causeRender ::
              ((if s.point_size_property_ then [Event.changed Property.pointSize] else [])
                ++ s.events))
      ∧ (∀ z : F,
          getZPosition (setZPosition z s) = z
          ∧ (setZPosition z s).scene_node_.position = { x := 0, y := z, z := 0 }
          ∧ geometry (setZPosition z s) = geometry s
          ∧ (setZPosition z s).events = Event.causeRender ::
              ((if s.z_position_property_ then [Event.changed Property.zPosition] else [])
                ++ s.events)) := by
  refine ⟨?_, ?_, ?_, ?_, ?_, ?_⟩
  · intro color
    constructor
    · intro hP
      exact setter_isSome env tf _ _ { s with color_ := color } (Or.inr hP)
    · intro s1 h1
      rw [setter_pass env tf _ _ { s with color_ := color } s1 h1]
      exact ⟨rfl, rfl, rfl⟩
  · intro override
    constructor
    · intro hP
      exact setter_isSome env tf _ _ { s with override_color_ := override } (Or.inr hP)
    · intro s1 h1
      rw [setter_pass env tf _ _ { s with override_color_ := override } s1 h1]
      exact ⟨rfl, rfl, rfl⟩
  · intro op
    constructor
    · intro hP
      exact setter_isSome env tf _ _ { s with render_operation_ := op } (Or.inr hP)
    · intro s1 h1
      rw [setter_pass env tf _ _ { s with render_operation_ := op } s1 h1]
      exact ⟨rfl, rfl, rfl⟩
  · intro alpha
    constructor
    · intro hP
      exact setter_isSome env tf _ _
        { s with alpha_ := alpha, cloud_ := s.cloud_.setAlpha alpha } (Or.inr hP)
    · intro s1 h1
      rw [setter_pass env tf _ _
        { s with alpha_ := alpha, cloud_ := s.cloud_.setAlpha alpha } s1 h1]
      exact ⟨rfl, rfl, rfl, rfl⟩
  · intro size
    rw [setPointSize_eq]
    exact ⟨rfl, rfl, rfl, rfl, rfl, rfl⟩
  · intro z
    rw [setZPosition_eq]
    exact ⟨rfl, rfl, rfl, rfl⟩

/-- C7, as stated, fails twice.  A display that has drawn a message and is
then disabled holds no primitive; `setColor` on it runs a pass and puts the
two line strips of the message back into the scene.  An enabled display that
has just received a message, not drawn yet, is given a point size;
`setPointSize` runs no pass: the scene stays empty, where a pass would draw
two line strips, and the only request made is the redraw (no property
object exists for the point size). -/
theorem setters_recompute_counterexample :
    ∃ s0 s t, construct demoEnv demoNoTransform demoBlank = some s0
      ∧ run demoEnv [Op.createProperties, Op.enable, Op.setTopic "polygons",
          Op.deliver demoMessage, Op.update demoTransform 1, Op.disable] s0 = some s
      ∧ s.enabled_ = false
      ∧ geometry s = ({ sections := [], current := none }, [])
      ∧ (∃ s1, setColor demoEnv demoTransform { r_ := 1, g_ := 1, b_ := 1 } s = some s1
          ∧ s1.manual_object_.sections.length = 2)
      ∧ run demoEnv [Op.createProperties, Op.enable, Op.setTopic "polygons",
          Op.deliver demoMessage] s0 = some t
      ∧ t.enabled_ = true
      ∧ geometry (setPointSize 9 t) = ({ sections := [], current := none }, [])
      ∧ (committedGeometry (setPointSize 9 t)).1.sections.length = 2
      ∧ (setPointSize 9 t).events = Event.causeRender :: t.events :=
  ⟨_, _, _, rfl, rfl, rfl, rfl, ⟨_, rfl, rfl⟩, rfl, rfl, rfl, rfl, rfl⟩

end Setters

/-! ## Invariants of the reachable states -/

section ReachableStates

variable {F R O : Type}

theorem update_some [Zero F] (env : Env F R O) (tf : FrameService F R) (dt : F)
    (s s1 : Display F O) (h : update env tf dt s = some s1) :
    (s.new_message_ = false ∧ s1 = s)
      ∨ (s.new_message_ = true ∧ s1 = { s with
          new_message_ := false
          manual_object_ := (committedGeometry s).1
          cloud_ := { s.cloud_ with points := (committedGeometry s).2 }
          scene_node_ :=
            { position := passPosition env tf s
              orientation := passOrientation env tf s
              visible := s.scene_node_.visible }
          events := Event.causeRender :: passEvents env tf s (submitted s) }) := by
  cases hflag : s.new_message_ with
  | false =>
    rw [update_of_no_flag env tf dt s hflag] at h
    cases h
    exact Or.inl ⟨rfl, rfl⟩
  | true =>
    rw [update_of_flag env tf dt s hflag] at h
    cases hp : processMessage env tf s with
    | none => rw [hp] at h; cases h
    | some s2 =>
      rw [hp] at h
      cases h
      right
      refine ⟨rfl, ?_⟩
      rw [processMessage_some env tf s s2 hp]
      rfl

theorem run_invariant [Zero F] (env : Env F R O) (P : Display F O → Prop)
    (hstep : ∀ op s s1, P s → step env op s = some s1 → P s1) :
    ∀ (ops : List (Op F R)) (s s1 : Display F O), P s → run env ops s = some s1 → P s1 := by
  intro ops
  induction ops with
  | nil =>
    intro s s1 hP h
    simp only [run, Option.some.injEq] at h
    rw [← h]; exact hP
  | cons op rest ih =>
    intro s s1 hP h
    simp only [run] at h
    cases hs : step env op s with
    | none => rw [hs] at h; cases h
    | some s2 =>
      rw [hs] at h
      exact ih s2 s1 (hstep op s s2 hP hs) h

theorem reachable_invariant [Zero F] (env : Env F R O) (P : Display F O → Prop)
    (hinit : ∀ tf blank s0, construct env tf blank = some s0 → P s0)
    (hstep : ∀ op s s1, P s → step env op s = some s1 → P s1)
    (s : Display F O) (h : Reachable env s) : P s := by
  obtain ⟨tf, blank, s0, ops, h0, hrun⟩ := h
  exact run_invariant env P hstep ops s0 s (hinit tf blank s0 h0) hrun

theorem subscribedTo_passEvents [Zero F] (env : Env F R O) (tf : FrameService F R)
    (s : Display F O) (n : Nat) (t : String) :
    subscribedTo (passEvents env tf s n) t = subscribedTo s.events t := by
  unfold passEvents
  split_ifs <;> simp [subscribedTo]

theorem subscribedTo_causeRender (l : List Event) (t : String) :
    subscribedTo (Event.causeRender :: l) t = subscribedTo l t := rfl

theorem subscribedTo_notify (present : Bool) (property : Property) (s : Display F O)
    (t : String) :
    subscribedTo (notify present property s).events t = subscribedTo s.events t := by
  rw [notify_events]
  cases present <;> rfl

theorem construct_some [Zero F] (env : Env F R O) (tf : FrameService F R)
    (blank s0 : Display F O) (h : construct env tf blank = some s0) :
    s0.topic_ = "" ∧ s0.new_message_ = false ∧ s0.cloud_.alpha = s0.alpha_
      ∧ ∀ t, subscribedTo s0.events t = false := by
  unfold construct at h
  simp only [] at h
  obtain ⟨s1, hp, hs0⟩ := Option.map_eq_some'.mp h
  have h1 := setter_pass env tf _ _ _ s1 hp
  have hz := setZPosition_eq (0 : F) (setPointSize env.lit_0_05 s1)
  have hsz := setPointSize_eq env.lit_0_05 s1
  rw [← hs0, hz, hsz]
  refine ⟨?_, ?_, ?_, ?_⟩
  · show s1.topic_ = ""
    rw [h1]
  · show s1.new_message_ = false
    rw [h1]
  · show s1.cloud_.alpha = s1.alpha_
    rw [h1]; rfl
  · intro t
    have hflags : s1.point_size_property_ = false ∧ s1.z_position_property_ = false := by
      rw [h1]; exact ⟨rfl, rfl⟩
    have hev : subscribedTo s1.events t = false := by
      rw [h1]
      show subscribedTo (Event.causeRender :: passEvents env tf _ _) t = false
      rw [subscribedTo_causeRender, subscribedTo_passEvents, subscribedTo_notify]
      rfl
    show subscribedTo (Event.causeRender ::
      ((if s1.z_position_property_ = true then [Event.changed Property.zPosition] else [])
        ++ (Event.causeRender ::
          ((if s1.point_size_property_ = true then [Event.changed Property.pointSize] else [])
            ++ s1.events)))) t = false
    rw [hflags.1, hflags.2]
    exact hev

theorem SubscriptionInv.congr (s s2 : Display F O) (hinv : SubscriptionInv s)
    (ht : s2.topic_ = s.topic_)
    (hev : ∀ t, subscribedTo s2.events t = subscribedTo s.events t) : SubscriptionInv s2 := by
  intro t hsub
  rw [hev t] at hsub
  rw [ht]
  exact hinv t hsub

theorem subscriptionInv_unsubscribe (s : Display F O) (h : SubscriptionInv s) :
    ∀ t, subscribedTo (unsubscribe s).events t = false := by
  intro t
  unfold unsubscribe
  by_cases ht : s.topic_ = ""
  · simp only [ht, ne_eq, not_true_eq_false, if_false]
    cases hsub : subscribedTo s.events t with
    | false => rfl
    | true =>
      have := h t hsub
      rw [ht] at this
      exact absurd this.1 this.2
  · simp only [ne_eq, ht, not_false_eq_true, if_true, Display.log, subscribedTo]
    by_cases heq : s.topic_ = t
    · simp [heq]
    · simp only [heq, if_false]
      cases hsub : subscribedTo s.events t with
      | false => rfl
      | true => exact absurd (h t hsub).1.symm heq

theorem subscriptionInv_subscribe (s : Display F O)
    (h : ∀ t, subscribedTo s.events t = false) : SubscriptionInv (subscribe s) := by
  intro t ht
  unfold subscribe at ht ⊢
  cases he : s.enabled_ with
  | false => simp [he, h t] at ht
  | true =>
    by_cases hn : s.topic_ = ""
    · simp [he, hn, h t] at ht
    · simp only [he, Bool.not_true, Bool.false_eq_true, if_false, ne_eq, hn, not_false_eq_true,
        if_true, Display.log, subscribedTo] at ht ⊢
      by_cases heq : s.topic_ = t
      · exact ⟨heq.symm, fun h0 => hn (heq.trans h0)⟩
      · simp [heq, h t] at ht

theorem subscribe_eq (s : Display F O) :
    subscribe s = { s with events := (subscribe s).events } := by
  unfold subscribe
  split_ifs <;> rfl

theorem unsubscribe_eq (s : Display F O) :
    unsubscribe s = { s with events := (unsubscribe s).events } := by
  unfold unsubscribe
  split_ifs <;> rfl

theorem setTopic_eq (topic : String) (s : Display F O) :
    setTopic topic s = { s with topic_ := topic, events := (setTopic topic s).events } := by
  obtain ⟨ev1, h1⟩ : ∃ ev, unsubscribe s = { s with events := ev } := ⟨_, unsubscribe_eq s⟩
  obtain ⟨ev2, h2⟩ : ∃ ev, subscribe { unsubscribe s with topic_ := topic }
      = { unsubscribe s with topic_ := topic, events := ev } := ⟨_, subscribe_eq _⟩
  obtain ⟨ev3, h3⟩ : ∃ ev, notify s.topic_property_ Property.topic
      (subscribe { unsubscribe s with topic_ := topic })
      = { subscribe { unsubscribe s with topic_ := topic } with events := ev } :=
    ⟨_, notify_eq _ _ _⟩
  unfold setTopic causeRender Display.log
  rw [h3, h2, h1]

theorem enable_eq (s : Display F O) :
    enable s = { s with
      enabled_ := true
      scene_node_ := s.scene_node_.setVisible true
      events := (enable s).events } := by
  have h := subscribe_eq
    { s with enabled_ := true, scene_node_ := s.scene_node_.setVisible true }
  unfold enable onEnable
  rw [h]

theorem onDisable_eq (s : Display F O) :
    onDisable s = { s with
      manual_object_ := { sections := [], current := none }
      cloud_ := { s.cloud_ with points := [] }
      scene_node_ := s.scene_node_.setVisible false
      events := (onDisable s).events } := by
  have h := unsubscribe_eq s
  unfold onDisable clear
  simp only []
  rw [h]
  rfl

theorem disable_eq (s : Display F O) :
    disable s = { s with
      enabled_ := false
      manual_object_ := { sections := [], current := none }
      cloud_ := { s.cloud_ with points := [] }
      scene_node_ := s.scene_node_.setVisible false
      events := (disable s).events } := by
  unfold disable
  rw [onDisable_eq]

theorem step_subscriptionInv [Zero F] (env : Env F R O) (op : Op F R) (s s1 : Display F O)
    (hinv : SubscriptionInv s) (h : step env op s = some s1) : SubscriptionInv s1 := by
  have pass : ∀ (tf : FrameService F R) (present : Bool) (property : Property)
      (s0 : Display F O), s0.topic_ = s.topic_ → s0.events = s.events →
      (processMessage env tf (notify present property s0)).map causeRender = some s1 →
      SubscriptionInv s1 := by
    intro tf present property s0 ht hev hp
    have h1 := setter_pass env tf present property s0 s1 hp
    apply SubscriptionInv.congr s s1 hinv
    · rw [h1]; exact ht
    · intro t
      rw [h1]
      show subscribedTo (Event.causeRender ::
        passEvents env tf (notify present property s0) (submitted s0)) t = _
      rw [subscribedTo_causeRender, subscribedTo_passEvents, subscribedTo_notify, hev]
  cases op with
  | deliver m =>
    cases h
    exact SubscriptionInv.congr s _ hinv rfl (fun _ => rfl)
  | update tf dt =>
    rcases update_some env tf dt s s1 h with ⟨_, h1⟩ | ⟨_, h1⟩
    · rw [h1]; exact hinv
    · apply SubscriptionInv.congr s s1 hinv
      · rw [h1]
      · intro t
        rw [h1]
        show subscribedTo (Event.causeRender :: passEvents env tf s (submitted s)) t = _
        rw [subscribedTo_causeRender, subscribedTo_passEvents]
  | setTopic topic =>
    cases h
    have hnone := subscriptionInv_unsubscribe s hinv
    have h2 := subscriptionInv_subscribe { unsubscribe s with topic_ := topic } hnone
    apply SubscriptionInv.congr _ _ h2
    · rw [setTopic_eq, subscribe_eq]
    · intro t
      show subscribedTo (Event.causeRender :: (notify s.topic_property_ Property.topic
        (subscribe { unsubscribe s with topic_ := topic })).events) t = _
      rw [subscribedTo_causeRender, subscribedTo_notify]
  | setColor tf color => exact pass tf _ _ { s with color_ := color } rfl rfl h
  | setOverrideColor tf override =>
    exact pass tf _ _ { s with override_color_ := override } rfl rfl h
  | setRenderOperation tf op => exact pass tf _ _ { s with render_operation_ := op } rfl rfl h
  | setPointSize size =>
    cases h
    apply SubscriptionInv.congr s _ hinv
    · rw [setPointSize_eq]
    · intro t
      rw [setPointSize_eq]
      cases s.point_size_property_ <;> rfl
  | setZPosition z =>
    cases h
    apply SubscriptionInv.congr s _ hinv
    · rw [setZPosition_eq]
    · intro t
      rw [setZPosition_eq]
      cases s.z_position_property_ <;> rfl
  | setAlpha tf alpha =>
    exact pass tf _ _ { s with alpha_ := alpha, cloud_ := s.cloud_.setAlpha alpha } rfl rfl h
  | enable =>
    cases h
    intro t ht
    unfold enable onEnable subscribe at ht ⊢
    by_cases hn : s.topic_ = ""
    · simp only [hn, Bool.not_true, Bool.false_eq_true, if_false, ne_eq, not_true_eq_false] at ht ⊢
      have := hinv t ht
      rw [hn] at this
      exact this
    · simp only [Bool.not_true, Bool.false_eq_true, if_false, ne_eq, hn, not_false_eq_true,
        if_true, Display.log, subscribedTo] at ht ⊢
      by_cases heq : s.topic_ = t
      · exact ⟨heq.symm, fun h0 => hn (heq.trans h0)⟩
      · simp only [heq, if_false] at ht
        exact hinv t ht
  | disable =>
    cases h
    have hnone := subscriptionInv_unsubscribe { s with enabled_ := false } hinv
    intro t ht
    have := hnone t
    unfold disable onDisable at ht
    simp only [clear] at ht
    rw [this] at ht
    cases ht
  | setFixedFrame frame =>
    cases h
    exact SubscriptionInv.congr s _ hinv rfl (fun _ => rfl)
  | reset =>
    cases h
    exact SubscriptionInv.congr s _ hinv rfl (fun _ => rfl)
  | createProperties =>
    cases h
    exact SubscriptionInv.congr s _ hinv rfl (fun _ => rfl)

theorem reachable_subscriptionInv [Zero F] (env : Env F R O) (s : Display F O)
    (h : Reachable env s) : SubscriptionInv s := by
  apply reachable_invariant env SubscriptionInv _ (step_subscriptionInv env) s h
  intro tf blank s0 h0 t ht
  rw [(construct_some env tf blank s0 h0).2.2.2 t] at ht
  cases ht

theorem step_alphaInv [Zero F] (env : Env F R O) (op : Op F R) (s s1 : Display F O)
    (hinv : AlphaInv s) (h : step env op s = some s1) : AlphaInv s1 := by
  have pass : ∀ (tf : FrameService F R) (present : Bool) (property : Property)
      (s0 : Display F O), AlphaInv s0 →
      (processMessage env tf (notify present property s0)).map causeRender = some s1 →
      AlphaInv s1 := by
    intro tf present property s0 h0 hp
    rw [setter_pass env tf present property s0 s1 hp]
    exact h0
  cases op with
  | deliver m => cases h; exact hinv
  | update tf dt =>
    rcases update_some env tf dt s s1 h with ⟨_, h1⟩ | ⟨_, h1⟩
    · rw [h1]; exact hinv
    · rw [h1]; exact hinv
  | setTopic topic => cases h; rw [setTopic_eq]; exact hinv
  | setColor tf color => exact pass tf _ _ { s with color_ := color } hinv h
  | setOverrideColor tf override =>
    exact pass tf _ _ { s with override_color_ := override } hinv h
  | setRenderOperation tf op => exact pass tf _ _ { s with render_operation_ := op } hinv h
  | setPointSize size => cases h; rw [setPointSize_eq]; exact hinv
  | setZPosition z => cases h; rw [setZPosition_eq]; exact hinv
  | setAlpha tf alpha =>
    exact pass tf _ _ { s with alpha_ := alpha, cloud_ := s.cloud_.setAlpha alpha } rfl h
  | enable => cases h; rw [enable_eq]; exact hinv
  | disable => cases h; rw [disable_eq]; exact hinv
  | setFixedFrame frame => cases h; exact hinv
  | reset => cases h; exact hinv
  | createProperties => cases h; exact hinv

theorem reachable_alphaInv [Zero F] (env : Env F R O) (s : Display F O)
    (h : Reachable env s) : AlphaInv s := by
  apply reachable_invariant env AlphaInv _ (step_alphaInv env) s h
  intro tf blank s0 h0
  exact (construct_some env tf blank s0 h0).2.2.1

theorem step_new_message [Zero F] (env : Env F R O) (op : Op F R) (s s1 : Display F O)
    (h : step env op s = some s1) (rest : List (Op F R)) :
    deliveredSinceUpdate s1.new_message_ rest
      = deliveredSinceUpdate s.new_message_ (op :: rest) := by
  have pass : ∀ (tf : FrameService F R) (present : Bool) (property : Property)
      (s0 : Display F O), s0.new_message_ = s.new_message_ →
      (processMessage env tf (notify present property s0)).map causeRender = some s1 →
      s1.new_message_ = s.new_message_ := by
    intro tf present property s0 h0 hp
    rw [setter_pass env tf present property s0 s1 hp]
    exact h0
  cases op with
  | deliver m => cases h; rfl
  | update tf dt =>
    rcases update_some env tf dt s s1 h with ⟨h0, h1⟩ | ⟨_, h1⟩
    · rw [h1, h0]; rfl
    · rw [h1]; rfl
  | setTopic topic => cases h; rw [setTopic_eq]; rfl
  | setColor tf color =>
    rw [pass tf _ _ { s with color_ := color } rfl h]; rfl
  | setOverrideColor tf override =>
    rw [pass tf _ _ { s with override_color_ := override } rfl h]; rfl
  | setRenderOperation tf op =>
    rw [pass tf _ _ { s with render_operation_ := op } rfl h]; rfl
  | setPointSize size => cases h; rw [setPointSize_eq]; rfl
  | setZPosition z => cases h; rw [setZPosition_eq]; rfl
  | setAlpha tf alpha =>
    rw [pass tf _ _ { s with alpha_ := alpha, cloud_ := s.cloud_.setAlpha alpha } rfl h]; rfl
  | enable => cases h; rw [enable_eq]; rfl
  | disable => cases h; rw [disable_eq]; rfl
  | setFixedFrame frame => cases h; rfl
  | reset => cases h; rfl
  | createProperties => cases h; rfl

theorem run_new_message [Zero F] (env : Env F R O) :
    ∀ (ops : List (Op F R)) (s s1 : Display F O), run env ops s = some s1 →
      s1.new_message_ = deliveredSinceUpdate s.new_message_ ops := by
  intro ops
  induction ops with
  | nil =>
    intro s s1 h
    simp only [run, Option.some.injEq] at h
    rw [← h]; rfl
  | cons op rest ih =>
    intro s s1 h
    simp only [run] at h
    cases hs : step env op s with
    | none => rw [hs] at h; cases h
    | some s2 =>
      rw [hs] at h
      rw [ih s2 s1 h]
      exact step_new_message env op s s2 hs rest

end ReachableStates

/-! ## The colour rule -/

section ColourRule

variable {F R O : Type}

/-- C3: in both render modes the colour of what a pass emits for a point of
polygon i is the colour rule of the specification applied to the colour of
polygon i.  In Lines mode every vertex carries that colour, configured alpha
included.  In Points mode every point carries its red, green and blue, and is
drawn with the alpha of the cloud, which `setAlpha` sets together with
`alpha_`: the two are equal in every reachable state.  The alpha of the source message has no influence on
the scene.  A pass in Lines mode, or on a message of fewer than `2 ^ 32`
points, completes. -/
theorem colour_rule_in_both_modes [Zero F] (env : Env F R O) (tf : FrameService F R)
    (s : Display F O) :
    ((s.render_operation_ ≠ PPoints ∨ totalPoints s.message_ < UINT32) →
        (processMessage env tf s).isSome = true)
      ∧ (∀ s1, processMessage env tf s = some s1 →
          (s.render_operation_ ≠ PPoints →
            s1.manual_object_.sections.map (fun sec => sec.vertices.map fun v => v.colour)
              = s.message_.polygons.map fun poly => poly.points.map fun _ =>
                  some (effectiveColor s.override_color_ s.color_ s.alpha_ poly.color))
          ∧ (s.render_operation_ = PPoints → s.cloud_.alpha = s.alpha_ →
            s1.cloud_.points.map s1.cloud_.colourOf
              = s.message_.polygons.flatMap fun poly => poly.points.map fun _ =>
                  effectiveColor s.override_color_ s.color_ s.alpha_ poly.color))
      ∧ (Reachable env s → s.cloud_.alpha = s.alpha_)
      ∧ ∀ g : ColorRGBA F → F,
          (processMessage env tf { s with message_ := replaceAlpha g s.message_ }).map scene
            = (processMessage env tf s).map scene := by
  refine ⟨processMessage_isSome env tf s, ?_, reachable_alphaInv env s,
    processMessage_replaceAlpha env tf s⟩
  intro s1 hpass
  constructor
  · intro hm
    rw [processMessage_lines env tf s hm] at hpass
    cases hpass
    simp only [List.map_map]
    apply List.map_congr_left
    intro poly _
    simp [Function.comp_def, lineStrip, stripVertex, resolveColour_eq]
  · intro hm halpha
    by_cases hP : totalPoints s.message_ < UINT32
    · rw [processMessage_points env tf s hm hP] at hpass
      cases hpass
      simp only [cloudPoints, List.map_flatMap, List.map_map]
      congr 1
      funext poly
      apply List.map_congr_left
      intro pt _
      simp [Function.comp_def, currentPoint, PointCloud.colourOf, resolveColour_eq,
        effectiveColor, halpha]
      cases s.override_color_ <;> simp
    · rw [processMessage_overflow env tf s hm (Nat.le_of_not_lt hP)] at hpass
      cases hpass

/-- Witness of C3: the two-polygon message in Points mode, where the cloud
has the configured alpha. -/
theorem colour_rule_in_both_modes_witness :
    (processMessage demoEnv demoNoTransform demoPointsDisplay).isSome = true
      ∧ demoPointsDisplay.cloud_.alpha = demoPointsDisplay.alpha_
      ∧ ∀ s1, processMessage demoEnv demoNoTransform demoPointsDisplay = some s1 →
          s1.cloud_.points.map s1.cloud_.colourOf
            = [{ r := 1, g := 0, b := 0, a := 2 }, { r := 1, g := 0, b := 0, a := 2 },
               { r := 0, g := 0, b := 1, a := 2 }, { r := 0, g := 0, b := 1, a := 2 }] :=
  ⟨(colour_rule_in_both_modes demoEnv demoNoTransform demoPointsDisplay).1
      (Or.inr (by decide)),
    by decide,
    fun s1 h =>
      ((colour_rule_in_both_modes demoEnv demoNoTransform demoPointsDisplay).2.1 s1 h).2
        (by decide) (by decide)⟩

end ColourRule

/-! ## The new-data flag -/

section NewDataFlag

variable {F R O : Type}

/-- C8, as amended: in every state reached from a constructed display by a
sequence of operations, `new_message_` is true if and only if a message was
delivered after the last `update` of the sequence.  A delivery sets the flag,
every completed `update` leaves it false, and the passes started by
`setColor`, `setOverrideColor`, `setRenderOperation` and `setAlpha` leave it
as it was. -/
theorem new_message_tracks_deliveries [Zero F] (env : Env F R O) (tf : FrameService F R)
    (blank s0 s : Display F O) (ops : List (Op F R))
    (hnew : construct env tf blank = some s0) (hrun : run env ops s0 = some s) :
    s.new_message_ = deliveredSinceUpdate false ops
      ∧ (∀ m, (deliver m s).new_message_ = true)
      ∧ (∀ tf1 dt s1, update env tf1 dt s = some s1 → s1.new_message_ = false)
      ∧ (∀ tf1 color s1, setColor env tf1 color s = some s1 →
          s1.new_message_ = s.new_message_)
      ∧ (∀ tf1 override s1, setOverrideColor env tf1 override s = some s1 →
          s1.new_message_ = s.new_message_)
      ∧ (∀ tf1 op s1, setRenderOperation env tf1 op s = some s1 →
          s1.new_message_ = s.new_message_)
      ∧ (∀ tf1 alpha s1, setAlpha env tf1 alpha s = some s1 →
          s1.new_message_ = s.new_message_) := by
  have h0 := (construct_some env tf blank s0 hnew).2.1
  have hflag := run_new_message env ops s0 s hrun
  rw [h0] at hflag
  refine ⟨hflag, fun _ => rfl, ?_, ?_, ?_, ?_, ?_⟩
  · intro tf1 dt s1 h1
    rcases update_some env tf1 dt s s1 h1 with ⟨hf, h2⟩ | ⟨_, h2⟩
    · rw [h2]; exact hf
    · rw [h2]
  · intro tf1 color s1 h1
    rw [setter_pass env tf1 _ _ { s with color_ := color } s1 h1]
  · intro tf1 override s1 h1
    rw [setter_pass env tf1 _ _ { s with override_color_ := override } s1 h1]
  · intro tf1 op s1 h1
    rw [setter_pass env tf1 _ _ { s with render_operation_ := op } s1 h1]
  · intro tf1 alpha s1 h1
    rw [setter_pass env tf1 _ _
      { s with alpha_ := alpha, cloud_ := s.cloud_.setAlpha alpha } s1 h1]

/-- Witness of C8: create the properties, enable, set the topic, receive a
message, tick. -/
theorem new_message_tracks_deliveries_witness :
    ∃ s0 s, construct demoEnv demoNoTransform demoBlank = some s0
      ∧ run demoEnv [Op.createProperties, Op.enable, Op.setTopic "polygons",
          Op.deliver demoMessage, Op.update demoTransform 1] s0 = some s
      ∧ s.new_message_ = false :=
  ⟨_, _, rfl, rfl,
    (new_message_tracks_deliveries demoEnv demoNoTransform demoBlank _ _
      [Op.createProperties, Op.enable, Op.setTopic "polygons", Op.deliver demoMessage,
        Op.update demoTransform 1]
      rfl rfl).1⟩

/-- C8, as stated, fails: create the properties, enable, set the topic,
receive a message, set the colour.  The pass started by `setColor` completes
and draws the message, so no unconsumed message is left, and `new_message_`
is still true. -/
theorem new_message_after_setter_counterexample :
    ∃ s0 s, construct demoEnv demoNoTransform demoBlank = some s0
      ∧ runTracking demoEnv [Op.createProperties, Op.enable, Op.setTopic "polygons",
          Op.deliver demoMessage,
          Op.setColor demoTransform { r_ := 1, g_ := 1, b_ := 1 }] (s0, false)
          = some (s, false)
      ∧ s.new_message_ = true
      ∧ s.message_ = demoMessage
      ∧ geometry s = committedGeometry s
      ∧ s.manual_object_.sections.length = 2 :=
  ⟨_, _, rfl, rfl, rfl, rfl, rfl, rfl⟩

end NewDataFlag

/-! ## Disabling, frame changes, reset -/

section Clearing

variable {F R O : Type}

/-- C9: right after `onDisable` (and after `disable` of the base class,
which calls it) the manual object has no section, the cloud has no point and
the node is invisible; an unsubscribe request for a non-empty topic is the
last word on that topic, and in every reachable state the display is then
subscribed to no topic at all.  `fixedFrameChanged` and `reset` empty the
manual object and the cloud and change nothing else: not the render
configuration, not the new-data flag, not the node, not the log. -/
theorem disable_clears_and_unsubscribes [Zero F] (env : Env F R O) (s : Display F O) :
    ((onDisable s).manual_object_ = { sections := [], current := none }
        ∧ (onDisable s).cloud_.points = []
        ∧ (onDisable s).scene_node_.visible = false
        ∧ (s.topic_ ≠ "" → subscribedTo (onDisable s).events s.topic_ = false)
        ∧ (Reachable env s → ∀ t, subscribedTo (onDisable s).events t = false))
      ∧ ((disable s).manual_object_ = { sections := [], current := none }
        ∧ (disable s).cloud_.points = []
        ∧ (disable s).scene_node_.visible = false
        ∧ (disable s).enabled_ = false
        ∧ (Reachable env s → ∀ t, subscribedTo (disable s).events t = false))
      ∧ (fixedFrameChanged s
          = { s with
              manual_object_ := { sections := [], current := none }
              cloud_ := { s.cloud_ with points := [] } }
        ∧ geometry (fixedFrameChanged s) = ({ sections := [], current := none }, [])
        ∧ (fixedFrameChanged s).new_message_ = s.new_message_)
      ∧ (reset s
          = { s with
              manual_object_ := { sections := [], current := none }
              cloud_ := { s.cloud_ with points := [] } }
        ∧ geometry (reset s) = ({ sections := [], current := none }, [])
        ∧ (reset s).new_message_ = s.new_message_) := by
  refine ⟨⟨?_, ?_, ?_, ?_, ?_⟩, ⟨?_, ?_, ?_, ?_, ?_⟩, ⟨rfl, rfl, rfl⟩, ⟨rfl, rfl, rfl⟩⟩
  · rw [onDisable_eq]
  · rw [onDisable_eq]
  · rw [onDisable_eq]; rfl
  · intro ht
    show subscribedTo (unsubscribe s).events s.topic_ = false
    unfold unsubscribe
    simp [ht, Display.log, subscribedTo]
  · intro hreach
    exact subscriptionInv_unsubscribe s (reachable_subscriptionInv env s hreach)
  · rw [disable_eq]
  · rw [disable_eq]
  · rw [disable_eq]; rfl
  · rw [disable_eq]
  · intro hreach
    exact subscriptionInv_unsubscribe { s with enabled_ := false }
      (reachable_subscriptionInv env s hreach)

/-- Witness of C9: a display that is enabled, subscribed to "polygons" and
shows two line strips. -/
theorem disable_clears_and_unsubscribes_witness :
    Reachable demoEnv demoShown
      ∧ subscribedTo demoShown.events "polygons" = true
      ∧ demoShown.manual_object_.sections.length = 2
      ∧ (onDisable demoShown).manual_object_ = { sections := [], current := none }
      ∧ (onDisable demoShown).cloud_.points = []
      ∧ (onDisable demoShown).scene_node_.visible = false
      ∧ ∀ t, subscribedTo (onDisable demoShown).events t = false :=
  have hreach : Reachable demoEnv demoShown :=
    ⟨demoNoTransform, demoBlank, _,
      [Op.enable, Op.setTopic "polygons", Op.deliver demoMessage, Op.update demoNoTransform 1],
      rfl, rfl⟩
  ⟨hreach, rfl, rfl,
    (disable_clears_and_unsubscribes demoEnv demoShown).1.1,
    (disable_clears_and_unsubscribes demoEnv demoShown).1.2.1,
    (disable_clears_and_unsubscribes demoEnv demoShown).1.2.2.1,
    (disable_clears_and_unsubscribes demoEnv demoShown).1.2.2.2.2 hreach⟩

end Clearing

/-! ## Changing the topic -/

section Topic

variable {F R O : Type}

/-- C10, as amended: `setTopic` asks the node to unsubscribe from the old
topic when that is not empty, stores the new topic, asks the node to
subscribe to it when the display is enabled and the new topic is not empty,
tells the topic property, if there is one, of the change, and requests a
redraw, in this order; it changes nothing else: the new-data flag, the
message in the slot and the primitives in the scene are what they were. -/
theorem setTopic_resubscribes (topic : String) (s : Display F O) :
    getTopic (setTopic topic s) = topic
      ∧ (setTopic topic s).events
          = Event.causeRender ::
              ((if s.topic_property_ then [Event.changed Property.topic] else [])
                ++ ((if s.enabled_ = true ∧ topic ≠ "" then [Event.subscribe topic] else [])
                  ++ ((if s.topic_ ≠ "" then [Event.unsubscribe s.topic_] else [])
                    ++ s.events)))
      ∧ (setTopic topic s).new_message_ = s.new_message_
      ∧ (setTopic topic s).message_ = s.message_
      ∧ scene (setTopic topic s) = scene s
      ∧ setTopic topic s
          = { s with topic_ := topic, events := (setTopic topic s).events } := by
  have heq := setTopic_eq topic s
  refine ⟨by rw [heq]; rfl, ?_, by rw [heq], by rw [heq], by rw [heq]; rfl, heq⟩
  have hp : (subscribe { unsubscribe s with topic_ := topic }).topic_property_
      = s.topic_property_ := by
    rw [subscribe_eq, unsubscribe_eq]
  unfold setTopic causeRender
  simp only [Display.log, notify_events]
  unfold subscribe unsubscribe Display.log
  cases he : s.enabled_ <;> by_cases h1 : s.topic_ = "" <;> by_cases h2 : topic = "" <;>
    simp [he, h1, h2]

/-- C10, as stated, fails: a display that shows the two line strips of one
message and holds a second, delivered and not yet drawn, is given another
topic; afterwards the new-data flag is still true, the slot still holds the
second message and the scene still shows the two line strips. -/
theorem setTopic_keeps_slot_and_scene_counterexample :
    ∃ s0 s, construct demoEnv demoNoTransform demoBlank = some s0
      ∧ run demoEnv [Op.createProperties, Op.enable, Op.setTopic "polygons",
          Op.deliver demoMessage, Op.update demoTransform 1,
          Op.deliver demoOtherMessage] s0 = some s
      ∧ (setTopic "other" s).events.take 4
          = [Event.causeRender, Event.changed Property.topic, Event.subscribe "other",
              Event.unsubscribe "polygons"]
      ∧ (setTopic "other" s).new_message_ = true
      ∧ (setTopic "other" s).message_ = demoOtherMessage
      ∧ (setTopic "other" s).manual_object_.sections.length = 2 :=
  ⟨_, _, rfl, rfl, by decide, by decide, by decide, by decide⟩

end Topic

/-! ## Subscribing -/

section Subscribing

variable {F R O : Type}

theorem subscribe_events (s : Display F O) :
    (subscribe s).events
      = if s.enabled_ = true ∧ s.topic_ ≠ "" then Event.subscribe s.topic_ :: s.events
        else s.events := by
  unfold subscribe Display.log
  cases he : s.enabled_ <;> by_cases ht : s.topic_ = "" <;> simp [ht]

theorem unsubscribe_events (s : Display F O) :
    (unsubscribe s).events
      = if s.topic_ ≠ "" then Event.unsubscribe s.topic_ :: s.events else s.events := by
  unfold unsubscribe Display.log
  by_cases ht : s.topic_ = "" <;> simp [ht]

theorem mem_subscribe_passEvents [Zero F] (env : Env F R O) (tf : FrameService F R)
    (s : Display F O) (n : Nat) (t : String) :
    Event.subscribe t ∈ passEvents env tf s n ↔ Event.subscribe t ∈ s.events := by
  unfold passEvents
  split_ifs <;> simp

theorem mem_subscribe_notify (present : Bool) (property : Property) (s : Display F O)
    (t : String) :
    Event.subscribe t ∈ (notify present property s).events ↔ Event.subscribe t ∈ s.events := by
  rw [notify_events]
  cases present <;> simp

theorem mem_subscribe_subscribe (s : Display F O) (t : String)
    (h : Event.subscribe t ∈ (subscribe s).events) :
    Event.subscribe t ∈ s.events ∨ (s.enabled_ = true ∧ t = s.topic_ ∧ t ≠ "") := by
  rw [subscribe_events] at h
  by_cases hc : s.enabled_ = true ∧ s.topic_ ≠ ""
  · rw [if_pos hc] at h
    rcases List.mem_cons.mp h with h1 | h1
    · right
      have ht : t = s.topic_ := by injection h1
      exact ⟨hc.1, ht, by rw [ht]; exact hc.2⟩
    · exact Or.inl h1
  · rw [if_neg hc] at h
    exact Or.inl h

theorem mem_subscribe_unsubscribe (s : Display F O) (t : String) :
    Event.subscribe t ∈ (unsubscribe s).events ↔ Event.subscribe t ∈ s.events := by
  rw [unsubscribe_events]
  split_ifs <;> simp

theorem step_subscribe [Zero F] (env : Env F R O) (op : Op F R) (s s1 : Display F O)
    (h : step env op s = some s1) :
    (∀ t, Event.subscribe t ∈ s1.events →
        Event.subscribe t ∈ s.events ∨ (s1.enabled_ = true ∧ t = s1.topic_ ∧ t ≠ ""))
      ∧ (s1.enabled_ = true → s.enabled_ = true ∨ op = Op.enable) := by
  have pass : ∀ (tf : FrameService F R) (present : Bool) (property : Property)
      (s0 : Display F O), s0.enabled_ = s.enabled_ → s0.events = s.events →
      (processMessage env tf (notify present property s0)).map causeRender = some s1 →
      (∀ t, Event.subscribe t ∈ s1.events →
          Event.subscribe t ∈ s.events ∨ (s1.enabled_ = true ∧ t = s1.topic_ ∧ t ≠ ""))
        ∧ (s1.enabled_ = true → s.enabled_ = true ∨ op = Op.enable) := by
    intro tf present property s0 hen hev hp
    have h1 := setter_pass env tf present property s0 s1 hp
    constructor
    · intro t ht
      rw [h1] at ht
      have ht1 : Event.subscribe t ∈ Event.causeRender ::
          passEvents env tf (notify present property s0) (submitted s0) := ht
      simp only [List.mem_cons, mem_subscribe_passEvents, mem_subscribe_notify, hev,
        false_or, reduceCtorEq] at ht1
      exact Or.inl ht1
    · intro he
      rw [h1] at he
      exact Or.inl (hen ▸ he)
  cases op with
  | deliver m =>
    cases h
    exact ⟨fun t ht => Or.inl ht, fun he => Or.inl he⟩
  | update tf dt =>
    rcases update_some env tf dt s s1 h with ⟨_, h1⟩ | ⟨_, h1⟩
    · rw [h1]
      exact ⟨fun t ht => Or.inl ht, fun he => Or.inl he⟩
    · constructor
      · intro t ht
        rw [h1] at ht
        have ht1 : Event.subscribe t ∈ Event.causeRender ::
            passEvents env tf s (submitted s) := ht
        simp only [List.mem_cons, mem_subscribe_passEvents, false_or, reduceCtorEq] at ht1
        exact Or.inl ht1
      · intro he
        rw [h1] at he
        exact Or.inl he
  | setTopic topic =>
    cases h
    have hen : (setTopic topic s).enabled_ = s.enabled_ := by rw [setTopic_eq]
    have htop : (setTopic topic s).topic_ = topic := by rw [setTopic_eq]
    constructor
    · intro t ht
      have ht1 : Event.subscribe t ∈ Event.causeRender ::
          (notify s.topic_property_ Property.topic
            (subscribe { unsubscribe s with topic_ := topic })).events := ht
      simp only [List.mem_cons, mem_subscribe_notify, false_or, reduceCtorEq] at ht1
      rcases mem_subscribe_subscribe _ t ht1 with h2 | ⟨h2, h3, h4⟩
      · exact Or.inl ((mem_subscribe_unsubscribe s t).mp h2)
      · right
        have h5 : (unsubscribe s).enabled_ = s.enabled_ := by rw [unsubscribe_eq]
        refine ⟨?_, ?_, h4⟩
        · rw [hen, ← h5]; exact h2
        · rw [htop]; exact h3
    · intro he
      rw [hen] at he
      exact Or.inl he
  | setColor tf color => exact pass tf _ _ { s with color_ := color } rfl rfl h
  | setOverrideColor tf override =>
    exact pass tf _ _ { s with override_color_ := override } rfl rfl h
  | setRenderOperation tf op1 => exact pass tf _ _ { s with render_operation_ := op1 } rfl rfl h
  | setPointSize size =>
    cases h
    rw [setPointSize_eq]
    constructor
    · intro t ht
      have ht1 : Event.subscribe t ∈ Event.causeRender ::
          ((if s.point_size_property_ = true then [Event.changed Property.pointSize] else [])
            ++ s.events) := ht
      cases hq : s.point_size_property_ <;> simp [hq] at ht1 <;> exact Or.inl ht1
    · intro he
      exact Or.inl he
  | setZPosition z =>
    cases h
    rw [setZPosition_eq]
    constructor
    · intro t ht
      have ht1 : Event.subscribe t ∈ Event.causeRender ::
          ((if s.z_position_property_ = true then [Event.changed Property.zPosition] else [])
            ++ s.events) := ht
      cases hq : s.z_position_property_ <;> simp [hq] at ht1 <;> exact Or.inl ht1
    · intro he
      exact Or.inl he
  | setAlpha tf alpha =>
    exact pass tf _ _ { s with alpha_ := alpha, cloud_ := s.cloud_.setAlpha alpha } rfl rfl h
  | enable =>
    cases h
    have hen : (enable s).enabled_ = true := by rw [enable_eq]
    have htop : (enable s).topic_ = s.topic_ := by rw [enable_eq]
    constructor
    · intro t ht
      have ht1 : Event.subscribe t ∈ (subscribe
          { s with enabled_ := true, scene_node_ := s.scene_node_.setVisible true }).events := ht
      rcases mem_subscribe_subscribe _ t ht1 with h2 | ⟨_, h3, h4⟩
      · exact Or.inl h2
      · exact Or.inr ⟨hen, by rw [htop]; exact h3, h4⟩
    · intro _
      exact Or.inr rfl
  | disable =>
    cases h
    have hen : (disable s).enabled_ = false := by rw [disable_eq]
    constructor
    · intro t ht
      have ht1 : Event.subscribe t ∈ (unsubscribe { s with enabled_ := false }).events := ht
      exact Or.inl ((mem_subscribe_unsubscribe { s with enabled_ := false } t).mp ht1)
    · intro he
      rw [hen] at he
      cases he
  | setFixedFrame frame =>
    cases h
    exact ⟨fun t ht => Or.inl ht, fun he => Or.inl he⟩
  | reset =>
    cases h
    exact ⟨fun t ht => Or.inl ht, fun he => Or.inl he⟩
  | createProperties =>
    cases h
    exact ⟨fun t ht => Or.inl ht, fun he => Or.inl he⟩

theorem construct_no_subscribe [Zero F] (env : Env F R O) (tf : FrameService F R)
    (blank s0 : Display F O) (h : construct env tf blank = some s0) :
    s0.enabled_ = blank.enabled_ ∧ ∀ t, Event.subscribe t ∉ s0.events := by
  unfold construct at h
  simp only [] at h
  obtain ⟨s1, hp, hs0⟩ := Option.map_eq_some'.mp h
  have h1 := setter_pass env tf _ _ _ s1 hp
  have hz := setZPosition_eq (0 : F) (setPointSize env.lit_0_05 s1)
  have hsz := setPointSize_eq env.lit_0_05 s1
  rw [← hs0, hz, hsz]
  constructor
  · show s1.enabled_ = blank.enabled_
    rw [h1]
  · intro t ht
    have hflags : s1.point_size_property_ = false ∧ s1.z_position_property_ = false := by
      rw [h1]; exact ⟨rfl, rfl⟩
    have hev : Event.subscribe t ∉ s1.events := by
      rw [h1]
      intro hmem
      have hmem1 : Event.subscribe t ∈ Event.causeRender :: passEvents env tf _ _ := hmem
      simp only [List.mem_cons, mem_subscribe_passEvents, mem_subscribe_notify, false_or,
        reduceCtorEq] at hmem1
      exact absurd hmem1 (List.not_mem_nil _)
    have ht1 : Event.subscribe t ∈ Event.causeRender ::
        ((if s1.z_position_property_ = true then [Event.changed Property.zPosition] else [])
          ++ (Event.causeRender ::
            ((if s1.point_size_property_ = true then [Event.changed Property.pointSize]
              else []) ++ s1.events))) := ht
    rw [hflags.1, hflags.2] at ht1
    simp at ht1
    exact hev ht1

theorem run_subscribe_nonempty [Zero F] (env : Env F R O) (ops : List (Op F R))
    (s s1 : Display F O) (h0 : ∀ t, Event.subscribe t ∈ s.events → t ≠ "")
    (h : run env ops s = some s1) :
    ∀ t, Event.subscribe t ∈ s1.events → t ≠ "" := by
  apply run_invariant env (fun d => ∀ t, Event.subscribe t ∈ d.events → t ≠ "") _ ops s s1 h0 h
  intro op d d1 hd hstep t ht
  rcases (step_subscribe env op d d1 hstep).1 t ht with h1 | ⟨_, _, h1⟩
  · exact hd t h1
  · exact h1

theorem run_without_enable [Zero F] (env : Env F R O) :
    ∀ (ops : List (Op F R)) (s s1 : Display F O), run env ops s = some s1 →
      s.enabled_ = false → (∀ t, Event.subscribe t ∉ s.events) → Op.enable ∉ ops →
      s1.enabled_ = false ∧ ∀ t, Event.subscribe t ∉ s1.events := by
  intro ops
  induction ops with
  | nil =>
    intro s s1 h hen hev _
    simp only [run, Option.some.injEq] at h
    rw [← h]
    exact ⟨hen, hev⟩
  | cons op rest ih =>
    intro s s1 h hen hev hno
    simp only [run] at h
    cases hs : step env op s with
    | none => rw [hs] at h; cases h
    | some s2 =>
      rw [hs] at h
      have hop : op ≠ Op.enable := fun heq => hno (heq ▸ List.mem_cons_self _ _)
      have hrest : Op.enable ∉ rest := fun hmem => hno (List.mem_cons_of_mem _ hmem)
      have hstep := step_subscribe env op s s2 hs
      have hen2 : s2.enabled_ = false := by
        cases he : s2.enabled_ with
        | false => rfl
        | true =>
          rcases hstep.2 he with h1 | h1
          · rw [hen] at h1; cases h1
          · exact absurd h1 hop
      have hev2 : ∀ t, Event.subscribe t ∉ s2.events := by
        intro t ht
        rcases hstep.1 t ht with h1 | ⟨h1, _, _⟩
        · exact hev t h1
        · rw [hen2] at h1; cases h1
      exact ih s2 s1 h hen2 hev2 hrest

/-- C11: `subscribe ()` asks the node for a subscription, to `topic_`, exactly
when the display is enabled and `topic_` is not empty, and then delivery on
`topic_` is on; with an empty topic, or while disabled, it asks for nothing
and changes nothing.  It touches nothing but the log of requests and cannot
fail.  `unsubscribe ()` with an empty topic changes nothing.  Consequently,
in every state reached from a constructed display, no subscription request in
the log is for the empty topic, and when the display was constructed disabled
a subscription request in the log means that `enable` was among the
operations. -/
theorem subscribe_needs_enabled_and_topic [Zero F] (env : Env F R O) (s : Display F O) :
    (subscribe s).events
        = (if s.enabled_ = true ∧ s.topic_ ≠ "" then Event.subscribe s.topic_ :: s.events
          else s.events)
      ∧ subscribe s = { s with events := (subscribe s).events }
      ∧ (subscribedTo s.events s.topic_ = false →
          (subscribedTo (subscribe s).events s.topic_ = true
            ↔ s.enabled_ = true ∧ s.topic_ ≠ ""))
      ∧ (s.topic_ = "" → unsubscribe s = s)
      ∧ ∀ (tf : FrameService F R) (blank s0 : Display F O) (ops : List (Op F R)),
          construct env tf blank = some s0 → run env ops s0 = some s →
          (∀ t, Event.subscribe t ∈ s.events → t ≠ "")
          ∧ (blank.enabled_ = false → (∃ t, Event.subscribe t ∈ s.events) →
              Op.enable ∈ ops) := by
  refine ⟨subscribe_events s, subscribe_eq s, ?_, ?_, ?_⟩
  · intro hnot
    rw [subscribe_events]
    by_cases hc : s.enabled_ = true ∧ s.topic_ ≠ ""
    · rw [if_pos hc]
      simp [subscribedTo, hc]
    · rw [if_neg hc, hnot]
      simp [hc]
  · intro ht
    unfold unsubscribe
    simp [ht]
  · intro tf blank s0 ops hnew hrun
    have h0 := construct_no_subscribe env tf blank s0 hnew
    constructor
    · exact run_subscribe_nonempty env ops s0 s (fun t ht => absurd ht (h0.2 t)) hrun
    · intro hdis hsub
      by_contra hno
      obtain ⟨t, ht⟩ := hsub
      exact (run_without_enable env ops s0 s hrun (h0.1.trans hdis) h0.2 hno).2 t ht

/-- Witness of C11: a display constructed disabled, enabled and given the
topic "polygons", has asked for a subscription to "polygons"; given the empty
topic instead, it has asked for none. -/
theorem subscribe_needs_enabled_and_topic_witness :
    ∃ s0 s t, construct demoEnv demoNoTransform demoBlank = some s0
      ∧ run demoEnv [Op.enable, Op.setTopic "polygons"] s0 = some s
      ∧ Event.subscribe "polygons" ∈ s.events
      ∧ (∀ u, Event.subscribe u ∈ s.events → u ≠ "")
      ∧ run demoEnv [Op.enable, Op.setTopic ""] s0 = some t
      ∧ (subscribe t).events = t.events :=
  ⟨_, _, _, rfl, rfl, by decide,
    ((subscribe_needs_enabled_and_topic demoEnv _).2.2.2.2 demoNoTransform demoBlank _
      [Op.enable, Op.setTopic "polygons"] rfl rfl).1,
    rfl, rfl⟩

end Subscribing

/-! ## The buffer of the Points branch -/

section PointsBuffer

variable {F R O : Type}

theorem fillPolygon_in_bounds (s : Display F O) (poly : Polygon3D F) :
    ∀ (pts : List (Point32 F)) (points points1 : List (CloudPoint F)) (cnt cnt1 : Nat),
      fillPolygon s poly pts (points, cnt) = some (points1, cnt1) →
      points1.length = points.length ∧ cnt1 = (polygonWriteIndices pts cnt).2
        ∧ ∀ i ∈ (polygonWriteIndices pts cnt).1, i < points.length := by
  intro pts
  induction pts with
  | nil =>
    intro points points1 cnt cnt1 h
    simp only [fillPolygon, Option.some.injEq, Prod.mk.injEq] at h
    obtain ⟨h1, h2⟩ := h
    subst h1; subst h2
    exact ⟨rfl, rfl, fun i hi => absurd hi (List.not_mem_nil i)⟩
  | cons pt rest ih =>
    intro points points1 cnt cnt1 h
    by_cases hc : cnt < points.length
    · have hw : writePoint points cnt (currentPoint s poly pt)
          = some (points.set cnt (currentPoint s poly pt)) := by
        simp only [writePoint]; rw [if_pos hc]
      simp only [fillPolygon, hw] at h
      obtain ⟨h1, h2, h3⟩ := ih _ _ _ _ h
      rw [List.length_set] at h1 h3
      refine ⟨h1, h2, ?_⟩
      intro i hi
      rcases List.mem_cons.mp hi with h4 | h4
      · rw [h4]; exact hc
      · exact h3 i h4
    · have hw : writePoint points cnt (currentPoint s poly pt) = none := by
        simp only [writePoint]; rw [if_neg hc]
      simp only [fillPolygon, hw] at h
      cases h

theorem fillPolygon_of_in_bounds (s : Display F O) (poly : Polygon3D F) :
    ∀ (pts : List (Point32 F)) (points : List (CloudPoint F)) (cnt : Nat),
      (∀ i ∈ (polygonWriteIndices pts cnt).1, i < points.length) →
      (fillPolygon s poly pts (points, cnt)).isSome = true := by
  intro pts
  induction pts with
  | nil => intro points cnt _; rfl
  | cons pt rest ih =>
    intro points cnt hall
    have hc : cnt < points.length := hall cnt (List.mem_cons_self _ _)
    have hw : writePoint points cnt (currentPoint s poly pt)
        = some (points.set cnt (currentPoint s poly pt)) := by
      simp only [writePoint]; rw [if_pos hc]
    simp only [fillPolygon, hw]
    apply ih
    intro i hi
    rw [List.length_set]
    exact hall i (List.mem_cons_of_mem _ hi)

theorem fillPoints_in_bounds (s : Display F O) :
    ∀ (polygons : List (Polygon3D F)) (points points1 : List (CloudPoint F)) (cnt cnt1 : Nat),
      fillPoints s polygons (points, cnt) = some (points1, cnt1) →
      points1.length = points.length ∧ cnt1 = (writeIndices polygons cnt).2
        ∧ ∀ i ∈ (writeIndices polygons cnt).1, i < points.length := by
  intro polygons
  induction polygons with
  | nil =>
    intro points points1 cnt cnt1 h
    simp only [fillPoints, Option.some.injEq, Prod.mk.injEq] at h
    obtain ⟨h1, h2⟩ := h
    subst h1; subst h2
    exact ⟨rfl, rfl, fun i hi => absurd hi (List.not_mem_nil i)⟩
  | cons poly rest ih =>
    intro points points1 cnt cnt1 h
    cases hp : fillPolygon s poly poly.points (points, cnt) with
    | none => simp only [fillPoints, hp] at h; cases h
    | some st =>
      obtain ⟨points2, cnt2⟩ := st
      simp only [fillPoints, hp] at h
      obtain ⟨h1, h2, h3⟩ := fillPolygon_in_bounds s poly _ _ _ _ _ hp
      obtain ⟨h4, h5, h6⟩ := ih _ _ _ _ h
      refine ⟨h4.trans h1, ?_, ?_⟩
      · rw [h5, h2]; rfl
      · intro i hi
        rcases List.mem_append.mp hi with h7 | h7
        · exact h3 i h7
        · rw [← h2] at h7
          rw [← h1]
          exact h6 i h7

theorem fillPoints_of_in_bounds (s : Display F O) :
    ∀ (polygons : List (Polygon3D F)) (points : List (CloudPoint F)) (cnt : Nat),
      (∀ i ∈ (writeIndices polygons cnt).1, i < points.length) →
      (fillPoints s polygons (points, cnt)).isSome = true := by
  intro polygons
  induction polygons with
  | nil => intro points cnt _; rfl
  | cons poly rest ih =>
    intro points cnt hall
    have h1 := fillPolygon_of_in_bounds s poly poly.points points cnt
      (fun i hi => hall i (List.mem_append_left _ hi))
    obtain ⟨st, hst⟩ := Option.isSome_iff_exists.mp h1
    obtain ⟨points2, cnt2⟩ := st
    obtain ⟨h2, h3, _⟩ := fillPolygon_in_bounds s poly _ _ _ _ _ hst
    simp only [fillPoints, hst]
    apply ih
    intro i hi
    rw [h2]
    apply hall i
    apply List.mem_append_right
    rw [h3] at hi
    exact hi

theorem polygonWriteIndices_eq :
    ∀ (pts : List (Point32 F)) (cnt : Nat), cnt + pts.length < UINT32 →
      polygonWriteIndices pts cnt = (List.range' cnt pts.length, cnt + pts.length) := by
  intro pts
  induction pts with
  | nil => intro cnt _; rfl
  | cons pt rest ih =>
    intro cnt hlt
    simp only [List.length_cons] at hlt
    have hmod : (cnt + 1) % UINT32 = cnt + 1 := Nat.mod_eq_of_lt (by omega)
    simp only [polygonWriteIndices, hmod, ih (cnt + 1) (by omega), List.length_cons,
      List.range'_succ]
    simp [Nat.add_assoc, Nat.add_comm 1]

theorem writeIndices_eq :
    ∀ (polygons : List (Polygon3D F)) (cnt : Nat),
      cnt + (polygons.map fun poly => poly.points.length).sum < UINT32 →
      writeIndices polygons cnt
        = (List.range' cnt (polygons.map fun poly => poly.points.length).sum,
            cnt + (polygons.map fun poly => poly.points.length).sum) := by
  intro polygons
  induction polygons with
  | nil => intro cnt _; rfl
  | cons poly rest ih =>
    intro cnt hlt
    simp only [List.map_cons, List.sum_cons] at hlt
    simp only [writeIndices, polygonWriteIndices_eq poly.points cnt (by omega),
      ih (cnt + poly.points.length) (by omega), List.map_cons, List.sum_cons,
      List.range'_append_1]
    simp [Nat.add_assoc, Nat.add_comm]

/-- C13: for every message whose number of points is below `2 ^ 32`, the
vector `points` is resized to the sum of the point counts of the polygons;
the writes `points[cnt_total_points]` of the nested loops go to the indices
0, 1, ..., P - 1, each once and each below the size of the vector (the loops
complete exactly when every such index is in bounds); when the loops end
`cnt_total_points` is the size of the vector and every slot holds the point
written for a point of the message; and in a pass `addPoints` is called only
for a non-empty vector, once, with all P points. -/
theorem points_buffer_is_safe [Zero F] (env : Env F R O) (tf : FrameService F R)
    (s : Display F O) (hfits : totalPoints s.message_ < UINT32) :
    countTotalPoints s.message_.polygons = totalPoints s.message_
      ∧ (∀ (points : List (CloudPoint F)) (cnt : Nat),
          (fillPoints s s.message_.polygons (points, cnt)).isSome = true
            ↔ ∀ i ∈ (writeIndices s.message_.polygons cnt).1, i < points.length)
      ∧ writeIndices s.message_.polygons 0
          = (List.range (totalPoints s.message_), totalPoints s.message_)
      ∧ (∀ i ∈ (writeIndices s.message_.polygons 0).1,
          i < (List.replicate (countTotalPoints s.message_.polygons)
                (CloudPoint.zero : CloudPoint F)).length)
      ∧ fillPoints s s.message_.polygons
            (List.replicate (countTotalPoints s.message_.polygons) CloudPoint.zero, 0)
          = some (cloudPoints s s.message_.polygons, totalPoints s.message_)
      ∧ (cloudPoints s s.message_.polygons).length = totalPoints s.message_
      ∧ (∀ p ∈ cloudPoints s s.message_.polygons,
          ∃ poly ∈ s.message_.polygons, ∃ pt ∈ poly.points, p = currentPoint s poly pt)
      ∧ (s.render_operation_ = PPoints →
          ∃ s1, processMessage env tf s = some s1
            ∧ s1.cloud_.points = cloudPoints s s.message_.polygons
            ∧ addPointsRequests s1.events
                = (if totalPoints s.message_ = 0 then []
                    else [Event.addPoints (totalPoints s.message_)])
                  ++ addPointsRequests s.events) := by
  have hcount : countTotalPoints s.message_.polygons = totalPoints s.message_ := by
    rw [countTotalPoints_eq, Nat.mod_eq_of_lt hfits]
  have hidx : writeIndices s.message_.polygons 0
      = (List.range (totalPoints s.message_), totalPoints s.message_) := by
    have h := writeIndices_eq s.message_.polygons 0 (by simpa [totalPoints] using hfits)
    rw [h, List.range_eq_range']
    simp [totalPoints]
  have hfill : fillPoints s s.message_.polygons
      (List.replicate (countTotalPoints s.message_.polygons) CloudPoint.zero, 0)
      = some (cloudPoints s s.message_.polygons, totalPoints s.message_) := by
    have h1 := fillPoints_ok s CloudPoint.zero s.message_.polygons [] (totalPoints s.message_)
      (le_refl _) (by simpa using hfits)
    rw [hcount]
    simpa [cloudPoints, totalPoints] using h1
  refine ⟨hcount, ?_, hidx, ?_, hfill, length_cloudPoints s s.message_, ?_, ?_⟩
  · intro points cnt
    constructor
    · intro h
      obtain ⟨st, hst⟩ := Option.isSome_iff_exists.mp h
      obtain ⟨points1, cnt1⟩ := st
      exact (fillPoints_in_bounds s _ _ _ _ _ hst).2.2
    · exact fillPoints_of_in_bounds s _ _ _
  · intro i hi
    rw [hidx] at hi
    rw [List.length_replicate, hcount]
    exact List.mem_range.mp hi
  · intro p hp
    obtain ⟨poly, hpoly, hmem⟩ := List.mem_flatMap.mp hp
    obtain ⟨pt, hpt, rfl⟩ := List.mem_map.mp hmem
    exact ⟨poly, hpoly, pt, hpt, rfl⟩
  · intro hmode
    refine ⟨_, processMessage_points env tf s hmode hfits, rfl, ?_⟩
    show addPointsRequests (passEvents env tf s (totalPoints s.message_)) = _
    unfold passEvents addPointsRequests
    by_cases h0 : totalPoints s.message_ = 0 <;>
      cases transformThrows env tf s <;> simp [h0]

/-- Witness of C13: the two-polygon message of four points; the writes go to
the indices 0, 1, 2, 3 of a vector of size 4. -/
theorem points_buffer_is_safe_witness :
    totalPoints demoPointsDisplay.message_ < UINT32
      ∧ countTotalPoints demoPointsDisplay.message_.polygons = 4
      ∧ writeIndices demoPointsDisplay.message_.polygons 0 = ([0, 1, 2, 3], 4)
      ∧ fillPoints demoPointsDisplay demoPointsDisplay.message_.polygons
            (List.replicate (countTotalPoints demoPointsDisplay.message_.polygons)
              CloudPoint.zero, 0)
          = some (cloudPoints demoPointsDisplay demoPointsDisplay.message_.polygons, 4) :=
  ⟨by decide,
    (points_buffer_is_safe demoEnv demoNoTransform demoPointsDisplay (by decide)).1,
    (points_buffer_is_safe demoEnv demoNoTransform demoPointsDisplay (by decide)).2.2.1,
    (points_buffer_is_safe demoEnv demoNoTransform demoPointsDisplay (by decide)).2.2.2.2.1⟩

end PointsBuffer

/-! ## The lock of the message -/

section MessageLock

variable {F R O : Type}

/-- In the log, a completed pass is one `lock`, then the requests of the
pass, none of them a `lock` or an `unlock`, then one `unlock`; so also when
the transform exception was caught. -/
theorem pass_brackets_lock [Zero F] (env : Env F R O) (tf : FrameService F R)
    (s s1 : Display F O) (h : processMessage env tf s = some s1) :
    ∃ requests, s1.events = Event.unlock :: (requests ++ Event.lock :: s.events)
      ∧ Event.lock ∉ requests ∧ Event.unlock ∉ requests := by
  have h1 : s1.events = passEvents env tf s (submitted s) := by
    rw [processMessage_some env tf s s1 h]
  refine ⟨(if submitted s = 0 then [] else [Event.addPoints (submitted s)])
      ++ (if transformThrows env tf s then [Event.rosError] else []), ?_, ?_, ?_⟩
  · rw [h1]
    unfold passEvents
    simp only [List.append_assoc]
  · split_ifs <;> simp
  · split_ifs <;> simp

end MessageLock

end ogre_vis
